import Mathlib

/-!
Verification development for the sketchboard server-side SVG renderer
(`src/render.ts` together with the extended variant carrying the pro style,
and the arrow-binding resolver of the viewer script).

Modelling conventions:
* JavaScript numbers are modelled by `ℚ` (exact rational arithmetic).  The
  places where the source can produce IEEE infinities (the `±Infinity`
  accumulator seeds of `calculateBounds`) use the explicit extension `XQ`.
* The PRNG line `seed = (seed * 1103515245 + 12345) & 0x7fffffff` is modelled
  as reduction modulo `2 ^ 31` on `ℤ`.
* Transcendental library functions (`Math.cos`, `Math.sin`, `Math.atan2`,
  `Math.sqrt`, `Math.PI`) are uninterpreted: every renderer is parameterised
  by a `MathPrims` record, and theorems quantify over all interpretations.
* `Date.now()` is modelled by an explicit `now : ℤ` argument to `renderToSvg`;
  two "repeated calls" are two applications with (possibly) different `now`.
* JS truthiness of `x || d` on strings/numbers (empty string and `0` are
  falsy) is modelled by `orStr` / `orQ` / `orInt`; `x ?? d` by `Option.getD`.
-/

namespace Sketchboard

/-- A 2-D point, `interface Point { x: number; y: number }`. -/
structure Point where
  x : ℚ
  y : ℚ
deriving DecidableEq, Repr

/-- Anchor positions on a shape's bounding box (`AnchorPosition`). -/
inductive Anchor where
  | top | bottom | left | right | center | auto
deriving DecidableEq, Repr

/-- `interface Binding` — target shape id, anchor, optional pixel offset.
`anchor` is optional here to mirror the untyped reader `binding.anchor || 'auto'`. -/
structure Binding where
  shapeId : String
  anchor : Option Anchor := none
  offsetX : Option ℚ := none
  offsetY : Option ℚ := none
deriving DecidableEq, Repr

/-- `startBinding?: Binding | string` — a full binding object or a legacy id. -/
inductive BindingRef where
  | byId (id : String)
  | ref (b : Binding)
deriving DecidableEq, Repr

/-- Arrow head / tail styles. -/
inductive HeadStyle where
  | arrow | triangle | diamond | circle | none
deriving DecidableEq, Repr

/-- Fields shared by every shape variant (`BaseShape`). -/
structure Common where
  id : String
  x : ℚ
  y : ℚ
  strokeColor : Option String := Option.none
  fillColor : Option String := Option.none
  strokeWidth : Option ℚ := Option.none
  opacity : Option ℚ := Option.none
deriving DecidableEq, Repr

/-- Fields of the box-like variants: width, height, optional label. -/
structure BoxData where
  width : ℚ
  height : ℚ
  label : Option String := Option.none
deriving DecidableEq, Repr

/-- Payload of the `arrow` variant (`ArrowShape`). -/
structure ArrowData where
  points : List Point
  startBinding : Option BindingRef := Option.none
  endBinding : Option BindingRef := Option.none
  curved : Bool := false
  dashed : Bool := false
  arrowHead : Option HeadStyle := Option.none
  arrowTail : Option HeadStyle := Option.none
  label : Option String := Option.none
  labelPosition : Option ℚ := Option.none
  labelOffset : Option Point := Option.none
deriving DecidableEq, Repr

/-- The closed `Shape` union of `types.ts` (12 variants). -/
inductive Shape where
  | rectangle (c : Common) (d : BoxData)
  | ellipse (c : Common) (d : BoxData)
  | diamond (c : Common) (d : BoxData)
  | cylinder (c : Common) (d : BoxData)
  | cloud (c : Common) (d : BoxData)
  | hexagon (c : Common) (d : BoxData)
  | document (c : Common) (d : BoxData)
  | person (c : Common) (d : BoxData)
  | callout (c : Common) (d : BoxData) (pointerX pointerY : Option ℚ)
  | line (c : Common) (points : List Point)
  | arrow (c : Common) (a : ArrowData)
  | text (c : Common) (content : String) (fontSize : Option ℚ) (fontFamily : Option String)
deriving DecidableEq, Repr

/-- The common-field record of a shape. -/
def Shape.c : Shape → Common
  | .rectangle c _ => c
  | .ellipse c _ => c
  | .diamond c _ => c
  | .cylinder c _ => c
  | .cloud c _ => c
  | .hexagon c _ => c
  | .document c _ => c
  | .person c _ => c
  | .callout c _ _ _ => c
  | .line c _ => c
  | .arrow c _ => c
  | .text c _ _ _ => c

/-- `shape.width` as the untyped JS read: present only on box-like variants. -/
def Shape.widthOpt : Shape → Option ℚ
  | .rectangle _ d => some d.width
  | .ellipse _ d => some d.width
  | .diamond _ d => some d.width
  | .cylinder _ d => some d.width
  | .cloud _ d => some d.width
  | .hexagon _ d => some d.width
  | .document _ d => some d.width
  | .person _ d => some d.width
  | .callout _ d _ _ => some d.width
  | _ => Option.none

/-- `shape.height` as the untyped JS read: present only on box-like variants. -/
def Shape.heightOpt : Shape → Option ℚ
  | .rectangle _ d => some d.height
  | .ellipse _ d => some d.height
  | .diamond _ d => some d.height
  | .cylinder _ d => some d.height
  | .cloud _ d => some d.height
  | .hexagon _ d => some d.height
  | .document _ d => some d.height
  | .person _ d => some d.height
  | .callout _ d _ _ => some d.height
  | _ => Option.none

/-- `CanvasState`: the ordered shape collection plus background color
(the only fields the renderer reads). -/
structure CanvasState where
  shapes : List Shape
  backgroundColor : Option String := Option.none
deriving DecidableEq, Repr

/-- Render styles. -/
inductive Style where
  | rough | clean | pro
deriving DecidableEq, Repr

/-- `RenderOptions` of the extended renderer. -/
structure RenderOptions where
  width : Option ℚ := Option.none
  height : Option ℚ := Option.none
  roughness : Option ℚ := Option.none
  seed : Option ℤ := Option.none
  darkMode : Option Bool := Option.none
  style : Option Style := Option.none
deriving DecidableEq, Repr

/-- Uninterpreted transcendental primitives of the JS `Math` library. -/
structure MathPrims where
  cos : ℚ → ℚ
  sin : ℚ → ℚ
  atan2 : ℚ → ℚ → ℚ
  sqrt : ℚ → ℚ
  pi : ℚ

/-- JS `s || d` for an optional string: `undefined` and `""` are falsy. -/
def orStr : Option String → String → String
  | Option.none, d => d
  | some s, d => if s = "" then d else s

/-- JS `q || d` for an optional number: `undefined` and `0` are falsy. -/
def orQ : Option ℚ → ℚ → ℚ
  | Option.none, d => d
  | some q, d => if q = 0 then d else q

/-- JS `n || d` for an optional integer: `undefined` and `0` are falsy
(used for `options.seed || Date.now()`). -/
def orInt : Option ℤ → ℤ → ℤ
  | Option.none, d => d
  | some n, d => if n = 0 then d else n

/-- JS truthiness of an optional string (`if (shape.label)`). -/
def strTruthy : Option String → Bool
  | Option.none => false
  | some s => !(s = "")

/-- `Math.min` on two rationals, kernel-computable form. -/
def jsMin (a b : ℚ) : ℚ := if a ≤ b then a else b

/-- `Math.max` on two rationals, kernel-computable form. -/
def jsMax (a b : ℚ) : ℚ := if b ≤ a then a else b

/-- `Math.min` on two integers, kernel-computable form. -/
def iMin (a b : ℤ) : ℤ := if a ≤ b then a else b

/-- `Math.min` on two naturals, kernel-computable form. -/
def nMin (a b : ℕ) : ℕ := if a ≤ b then a else b

/-- One step of `seededRandom`:
`seed = (seed * 1103515245 + 12345) & 0x7fffffff; return seed / 0x7fffffff`.
Returns the drawn value in `[0,1)` and the new cursor. -/
def randNext (seed : ℤ) : ℚ × ℤ :=
  let s : ℤ := (seed * 1103515245 + 12345) % (2 ^ 31)
  ((s : ℚ) / 2147483647, s)

/-- Split a character list at newline characters; `"".split('\n') = ['']`,
so the result is never empty. -/
def splitNl : List Char → List (List Char)
  | [] => [[]]
  | ch :: cs =>
    if ch = '\n' then [] :: splitNl cs
    else
      match splitNl cs with
      | [] => [[ch]]
      | l :: ls => (ch :: l) :: ls

/-- Length of the longest line, the `reduce` of `calcFontSize`
(`(a, b) => a.length > b.length ? a : b` starting from `''`;
only the length is consumed downstream). -/
def longestLineLen (lines : List (List Char)) : ℕ :=
  lines.foldl (fun acc l => if acc > l.length then acc else l.length) 0

/-- `calcFontSize(text, maxWidth, maxHeight, baseSize)` of `render.ts`.
When the longest line is empty the JS width bound is `(maxWidth*0.85)/0 = ±∞`
and drops out of the positive `Math.min` chain; that branch is modelled by
omitting the width bound (exact for `maxWidth > 0`). -/
def calcFontSize (text : String) (maxWidth maxHeight : ℚ) (baseSize : ℚ) : ℚ :=
  let lines := splitNl text.data
  let longest : ℕ := longestLineLen lines
  let maxFontByHeight : ℚ := (maxHeight * (7 / 10)) / ((lines.length : ℚ) * (13 / 10))
  if longest = 0 then
    jsMin baseSize (jsMin maxFontByHeight 20)
  else
    jsMin baseSize
      (jsMin ((maxWidth * (17 / 20)) / ((longest : ℚ) * (11 / 20)))
        (jsMin maxFontByHeight 20))

/-- Extended rationals modelling the JS values `±Infinity` that seed the
`calculateBounds` accumulator (NaN never arises on the paths modelled here). -/
inductive XQ where
  | fin (q : ℚ)
  | pinf
  | ninf
deriving DecidableEq, Repr

/-- `Math.min(acc, v)` with an extended accumulator and finite `v`. -/
def XQ.minQ : XQ → ℚ → XQ
  | .fin a, b => .fin (jsMin a b)
  | .pinf, b => .fin b
  | .ninf, _ => .ninf

/-- `Math.max(acc, v)` with an extended accumulator and finite `v`. -/
def XQ.maxQ : XQ → ℚ → XQ
  | .fin a, b => .fin (jsMax a b)
  | .ninf, b => .fin b
  | .pinf, _ => .pinf

/-- `x - c` for extended `x`, finite `c` (`Infinity - c = Infinity`). -/
def XQ.subQ : XQ → ℚ → XQ
  | .fin a, c => .fin (a - c)
  | .pinf, _ => .pinf
  | .ninf, _ => .ninf

/-- `x + c` for extended `x`, finite `c`. -/
def XQ.addQ : XQ → ℚ → XQ
  | .fin a, c => .fin (a + c)
  | .pinf, _ => .pinf
  | .ninf, _ => .ninf

/-- `a - b`, both extended, as needed for `bounds.maxX - bounds.minX`
(`-Infinity - Infinity = -Infinity` in JS; the same-sign NaN combinations are
unreachable from `calculateBounds` results and mapped to an arbitrary value). -/
def XQ.sub : XQ → XQ → XQ
  | .fin a, .fin b => .fin (a - b)
  | .fin _, .pinf => .ninf
  | .fin _, .ninf => .pinf
  | .pinf, .fin _ => .pinf
  | .ninf, .fin _ => .ninf
  | .ninf, .pinf => .ninf
  | .pinf, .ninf => .pinf
  | .pinf, .pinf => .pinf
  | .ninf, .ninf => .ninf

/-- `Math.max(x, c)` for extended `x`, finite `c`, extended result. -/
def XQ.maxX : XQ → ℚ → XQ
  | .fin a, c => .fin (jsMax a c)
  | .pinf, _ => .pinf
  | .ninf, c => .fin c

/-- The bounding box record returned by `calculateBounds`. -/
structure Bounds where
  minX : XQ
  minY : XQ
  maxX : XQ
  maxY : XQ
deriving DecidableEq, Repr

/-- One shape's contribution to the running min/max accumulator of
`calculateBounds`: line/arrow shapes contribute their raw points; every other
shape contributes `(x,y)` and `(x + (width ?? 100), y + (height ?? 50))`. -/
def boundsStep (b : Bounds) (s : Shape) : Bounds :=
  match s with
  | .line _ points =>
    points.foldl
      (fun b p => ⟨b.minX.minQ p.x, b.minY.minQ p.y, b.maxX.maxQ p.x, b.maxY.maxQ p.y⟩) b
  | .arrow _ a =>
    a.points.foldl
      (fun b p => ⟨b.minX.minQ p.x, b.minY.minQ p.y, b.maxX.maxQ p.x, b.maxY.maxQ p.y⟩) b
  | s =>
    let x := s.c.x
    let y := s.c.y
    let w := (s.widthOpt).getD 100
    let h := (s.heightOpt).getD 50
    ⟨b.minX.minQ x, b.minY.minQ y, b.maxX.maxQ (x + w), b.maxY.maxQ (y + h)⟩

/-- `calculateBounds(shapes, padding)` of `render.ts`: the empty list yields
the fixed default box, otherwise the accumulated min/max box expanded by
`padding` on all four sides. -/
def calculateBounds (shapes : List Shape) (padding : ℚ) : Bounds :=
  if shapes = [] then ⟨.fin 0, .fin 0, .fin 1200, .fin 800⟩
  else
    let acc := shapes.foldl boundsStep ⟨.pinf, .pinf, .ninf, .ninf⟩
    ⟨acc.minX.subQ padding, acc.minY.subQ padding, acc.maxX.addQ padding, acc.maxY.addQ padding⟩

/-- `getAnchorPoint(shape, anchor)` of the viewer script: the five fixed
points on the shape's `(width || 100) × (height || 50)` box; `auto`
resolves to the center. -/
def getAnchorPoint (shape : Shape) (anchor : Anchor) : Point :=
  let w := orQ shape.widthOpt 100
  let h := orQ shape.heightOpt 50
  let cx := shape.c.x + w / 2
  let cy := shape.c.y + h / 2
  match anchor with
  | .top => ⟨cx, shape.c.y⟩
  | .bottom => ⟨cx, shape.c.y + h⟩
  | .left => ⟨shape.c.x, cy⟩
  | .right => ⟨shape.c.x + w, cy⟩
  | .center => ⟨cx, cy⟩
  | .auto => ⟨cx, cy⟩

/-- The target id of a binding reference (`typeof b === 'string' ? b : b.shapeId`). -/
def bindTarget : BindingRef → String
  | .byId i => i
  | .ref b => b.shapeId

/-- The anchor of a binding reference
(`(typeof b === 'object' ? b.anchor : 'auto') || 'auto'`). -/
def bindAnchor : BindingRef → Anchor
  | .byId _ => .auto
  | .ref b => b.anchor.getD .auto

/-- The body of the `updateBoundArrows` loop for one shape: an arrow whose
start/end binding targets the moved shape's id gets that endpoint overwritten
with the bare anchor point (no offset is applied); the boolean records whether
a write happened. Non-arrows pass through. -/
def updateArrowForMove (moved : Shape) (s : Shape) : Shape × Bool :=
  match s with
  | .arrow c a =>
    let step1 : List Point × Bool :=
      match a.startBinding with
      | Option.none => (a.points, false)
      | some br =>
        if bindTarget br = moved.c.id then
          if a.points.length > 0 then
            (a.points.set 0 (getAnchorPoint moved (bindAnchor br)), true)
          else (a.points, false)
        else (a.points, false)
    let step2 : List Point × Bool :=
      match a.endBinding with
      | Option.none => (step1.1, false)
      | some br =>
        if bindTarget br = moved.c.id then
          if step1.1.length > 0 then
            (step1.1.set (step1.1.length - 1) (getAnchorPoint moved (bindAnchor br)), true)
          else (step1.1, false)
        else (step1.1, false)
    (.arrow c { a with points := step2.1 }, step1.2 || step2.2)
  | s => (s, false)

/-- `updateBoundArrows(movedShape)` of the viewer script, with the closed-over
`canvasState.shapes` passed explicitly. Returns the shape list as visible
after the in-place endpoint writes, paired with the collected updated arrows. -/
def updateBoundArrows (moved : Shape) (shapes : List Shape) : List Shape × List Shape :=
  let l := shapes.map (updateArrowForMove moved)
  (l.map Prod.fst, (l.filter Prod.snd).map Prod.fst)

/-- Deterministic decimal/rational printing of a JS number (exact value). -/
def numStr (q : ℚ) : String :=
  if q.den = 1 then toString q.num else toString q.num ++ "/" ++ toString q.den

/-- The apostrophe character, written via its code point. -/
def aposStr : String := String.singleton (Char.ofNat 39)

/-- Per-character XML escaping; the sequential `replace` chain of `escapeXml`
acts independently on each input character. -/
def escChar (c : Char) : String :=
  if c = '&' then "&amp;"
  else if c = '<' then "&lt;"
  else if c = '>' then "&gt;"
  else if c = '"' then "&quot;"
  else if c = Char.ofNat 39 then "&apos;"
  else String.singleton c

/-- `escapeXml` of `render.ts`. -/
def escapeXml (s : String) : String := String.join (s.data.map escChar)

/-- The `stroke=... stroke-width=... opacity=...` attribute group. -/
def styleAttr (stroke : String) (strokeWidth opacity : ℚ) : String :=
  "stroke=\"" ++ stroke ++ "\" stroke-width=\"" ++ numStr strokeWidth
    ++ "\" opacity=\"" ++ numStr opacity ++ "\""

/-- `jitter(x, y, amount, rand)`: two draws, one per axis. -/
def jitter (x y amount : ℚ) (r : ℤ) : Point × ℤ :=
  let (a, r1) := randNext r
  let (b, r2) := randNext r1
  (⟨x + (a - 1 / 2) * amount, y + (b - 1 / 2) * amount⟩, r2)

/-- `roughLine(x1, y1, x2, y2, rand, roughness)`: jitter both endpoints
(amount `roughness*2`), then bow through a random midpoint (6 draws total). -/
def roughLine (x1 y1 x2 y2 ρ : ℚ) (r : ℤ) : String × ℤ :=
  let jitterAmount := ρ * 2
  let (p1, r1) := jitter x1 y1 jitterAmount r
  let (p2, r2) := jitter x2 y2 jitterAmount r1
  let (m1, r3) := randNext r2
  let (m2, r4) := randNext r3
  let midX := (p1.x + p2.x) / 2 + (m1 - 1 / 2) * ρ * 3
  let midY := (p1.y + p2.y) / 2 + (m2 - 1 / 2) * ρ * 3
  ("M " ++ numStr p1.x ++ " " ++ numStr p1.y ++ " Q " ++ numStr midX ++ " "
    ++ numStr midY ++ " " ++ numStr p2.x ++ " " ++ numStr p2.y, r4)

/-- `roughRect`: the four sides as rough lines, joined by spaces. -/
def roughRect (x y w h ρ : ℚ) (r : ℤ) : String × ℤ :=
  let (s1, r1) := roughLine x y (x + w) y ρ r
  let (s2, r2) := roughLine (x + w) y (x + w) (y + h) ρ r1
  let (s3, r3) := roughLine (x + w) (y + h) x (y + h) ρ r2
  let (s4, r4) := roughLine x (y + h) x y ρ r3
  (s1 ++ " " ++ s2 ++ " " ++ s3 ++ " " ++ s4, r4)

/-- `roughDiamond`: the four edges of the rotated square as rough lines. -/
def roughDiamond (x y w h ρ : ℚ) (r : ℤ) : String × ℤ :=
  let cx := x + w / 2
  let cy := y + h / 2
  let (s1, r1) := roughLine cx y (x + w) cy ρ r
  let (s2, r2) := roughLine (x + w) cy cx (y + h) ρ r1
  let (s3, r3) := roughLine cx (y + h) x cy ρ r2
  let (s4, r4) := roughLine x cy cx y ρ r3
  (s1 ++ " " ++ s2 ++ " " ++ s3 ++ " " ++ s4, r4)

/-- The sample loop of `roughEllipse`: for each index, an angle sample with
two jitter draws (x then y). -/
def ellipsePts (P : MathPrims) (cx cy rx ry ρ : ℚ) (steps : ℕ) :
    List ℕ → ℤ → List Point × ℤ
  | [], r => ([], r)
  | i :: is, r =>
    let angle := ((i : ℚ) / (steps : ℚ)) * P.pi * 2
    let (a, r1) := randNext r
    let (b, r2) := randNext r1
    let p : Point := ⟨cx + P.cos angle * rx + (a - 1 / 2) * (ρ * 2),
                      cy + P.sin angle * ry + (b - 1 / 2) * (ρ * 2)⟩
    let (rest, r3) := ellipsePts P cx cy rx ry ρ steps is r2
    (p :: rest, r3)

/-- The segment loop of `roughEllipse`: quadratic links between consecutive
samples, each control point displaced by two draws. -/
def ellipseSegs (ρ : ℚ) : Point → List Point → ℤ → String × ℤ
  | _, [], r => ("", r)
  | prev, curr :: rest, r =>
    let (a, r1) := randNext r
    let (b, r2) := randNext r1
    let cpX := (prev.x + curr.x) / 2 + (a - 1 / 2) * ρ
    let cpY := (prev.y + curr.y) / 2 + (b - 1 / 2) * ρ
    let (restS, r3) := ellipseSegs ρ curr rest r2
    (" Q " ++ numStr cpX ++ " " ++ numStr cpY ++ " " ++ numStr curr.x ++ " "
      ++ numStr curr.y ++ restS, r3)

/-- `roughEllipse(cx, cy, rx, ry, rand, roughness)`: 25 jittered samples at 24
equally spaced angles, joined by quadratics, closed with `Z`. -/
def roughEllipse (P : MathPrims) (cx cy rx ry ρ : ℚ) (r : ℤ) : String × ℤ :=
  let (pts, r1) := ellipsePts P cx cy rx ry ρ 24 (List.range 25) r
  match pts with
  | [] => ("", r1)
  | p0 :: rest =>
    let (segs, r2) := ellipseSegs ρ p0 rest r1
    ("M " ++ numStr p0.x ++ " " ++ numStr p0.y ++ segs ++ " Z", r2)

/-- `roughCylinder`: rough top ellipse, rough sides, smooth bottom arc. -/
def roughCylinder (P : MathPrims) (x y w h ρ : ℚ) (r : ℤ) : String × ℤ :=
  let ellipseH := h * (3 / 20)
  let cx := x + w / 2
  let (top, r1) := roughEllipse P cx (y + ellipseH) (w / 2) ellipseH ρ r
  let bottom := "M " ++ numStr x ++ " " ++ numStr (y + h - ellipseH) ++ " Q " ++ numStr x
    ++ " " ++ numStr (y + h + ellipseH * (1 / 2)) ++ " " ++ numStr cx ++ " " ++ numStr (y + h)
    ++ " Q " ++ numStr (x + w) ++ " " ++ numStr (y + h + ellipseH * (1 / 2)) ++ " "
    ++ numStr (x + w) ++ " " ++ numStr (y + h - ellipseH)
  let (leftSide, r2) := roughLine x (y + ellipseH) x (y + h - ellipseH) ρ r1
  let (rightSide, r3) := roughLine (x + w) (y + ellipseH) (x + w) (y + h - ellipseH) ρ r2
  (top ++ " " ++ leftSide ++ " " ++ rightSide ++ " " ++ bottom, r3)

/-- The bump loop of `roughCloud`: per bump one size draw then two jitter
draws. -/
def cloudBumps (P : MathPrims) (cx cy rx ry ρ : ℚ) : List ℕ → ℤ → List Point × ℤ
  | [], r => ([], r)
  | i :: is, r =>
    let angle := ((i : ℚ) / 8) * P.pi * 2
    let (s, r1) := randNext r
    let bumpSize := 4 / 5 + s * (2 / 5)
    let (a, r2) := randNext r1
    let (b, r3) := randNext r2
    let p : Point := ⟨cx + P.cos angle * rx * bumpSize + (a - 1 / 2) * ρ * 3,
                      cy + P.sin angle * ry * bumpSize + (b - 1 / 2) * ρ * 3⟩
    let (rest, r4) := cloudBumps P cx cy rx ry ρ is r3
    (p :: rest, r4)

/-- The arc loop of `roughCloud`: quadratic between bump `i` and bump
`(i+1) mod 8`, with two control-point draws. -/
def cloudSegs (w h : ℚ) (bumps : List Point) : List ℕ → ℤ → String × ℤ
  | [], r => ("", r)
  | i :: is, r =>
    let curr := bumps.getD i ⟨0, 0⟩
    let next := bumps.getD ((i + 1) % bumps.length) ⟨0, 0⟩
    let (a, r1) := randNext r
    let (b, r2) := randNext r1
    let cpX := (curr.x + next.x) / 2 + (a - 1 / 2) * w * (3 / 10)
    let cpY := (curr.y + next.y) / 2 + (b - 1 / 2) * h * (3 / 10)
    let (restS, r3) := cloudSegs w h bumps is r2
    (" Q " ++ numStr cpX ++ " " ++ numStr cpY ++ " " ++ numStr next.x ++ " "
      ++ numStr next.y ++ restS, r3)

/-- `roughCloud`: 8 random-size bumps joined by random quadratic arcs. -/
def roughCloud (P : MathPrims) (x y w h ρ : ℚ) (r : ℤ) : String × ℤ :=
  let cx := x + w / 2
  let cy := y + h / 2
  let rx := w / 2
  let ry := h / 2
  let (bumps, r1) := cloudBumps P cx cy rx ry ρ (List.range 8) r
  let b0 := bumps.getD 0 ⟨0, 0⟩
  let (segs, r2) := cloudSegs w h bumps (List.range 8) r1
  ("M " ++ numStr b0.x ++ " " ++ numStr b0.y ++ segs, r2)

/-- `roughHexagon`: six rough edges of the flat-topped hexagon with 25%-width
corner inset. -/
def roughHexagon (x y w h ρ : ℚ) (r : ℤ) : String × ℤ :=
  let cy := y + h / 2
  let inset := w * (1 / 4)
  let (s1, r1) := roughLine (x + inset) y (x + w - inset) y ρ r
  let (s2, r2) := roughLine (x + w - inset) y (x + w) cy ρ r1
  let (s3, r3) := roughLine (x + w) cy (x + w - inset) (y + h) ρ r2
  let (s4, r4) := roughLine (x + w - inset) (y + h) (x + inset) (y + h) ρ r3
  let (s5, r5) := roughLine (x + inset) (y + h) x cy ρ r4
  let (s6, r6) := roughLine x cy (x + inset) y ρ r5
  (s1 ++ " " ++ s2 ++ " " ++ s3 ++ " " ++ s4 ++ " " ++ s5 ++ " " ++ s6, r6)

/-- `roughDocument`: three rough edges plus the smooth wavy bottom. -/
def roughDocument (x y w h ρ : ℚ) (r : ℤ) : String × ℤ :=
  let waveH := h * (1 / 10)
  let (s1, r1) := roughLine x y (x + w) y ρ r
  let (s2, r2) := roughLine (x + w) y (x + w) (y + h - waveH) ρ r1
  let wavy := "M " ++ numStr (x + w) ++ " " ++ numStr (y + h - waveH) ++ " Q "
    ++ numStr (x + w * (3 / 4)) ++ " " ++ numStr (y + h + waveH) ++ " "
    ++ numStr (x + w * (1 / 2)) ++ " " ++ numStr (y + h - waveH) ++ " Q "
    ++ numStr (x + w * (1 / 4)) ++ " " ++ numStr (y + h - waveH * 3) ++ " "
    ++ numStr x ++ " " ++ numStr (y + h - waveH)
  let (s4, r3) := roughLine x (y + h - waveH) x y ρ r2
  (s1 ++ " " ++ s2 ++ " " ++ wavy ++ " " ++ s4, r3)

/-- `roughPerson`: head ellipse plus five rough stick segments. -/
def roughPerson (P : MathPrims) (x y w h ρ : ℚ) (r : ℤ) : String × ℤ :=
  let headR := jsMin w h * (1 / 5)
  let cx := x + w / 2
  let headY := y + headR
  let bodyTop := y + headR * 2 + 5
  let bodyBottom := y + h * (13 / 20)
  let footY := y + h
  let (head, r1) := roughEllipse P cx headY headR headR ρ r
  let (body, r2) := roughLine cx bodyTop cx bodyBottom ρ r1
  let (leftArm, r3) := roughLine cx (bodyTop + 10) x (bodyTop + 30) ρ r2
  let (rightArm, r4) := roughLine cx (bodyTop + 10) (x + w) (bodyTop + 30) ρ r3
  let (leftLeg, r5) := roughLine cx bodyBottom (x + w * (1 / 5)) footY ρ r4
  let (rightLeg, r6) := roughLine cx bodyBottom (x + w * (4 / 5)) footY ρ r5
  (head ++ " " ++ body ++ " " ++ leftArm ++ " " ++ rightArm ++ " " ++ leftLeg
    ++ " " ++ rightLeg, r6)

/-- `roughCallout`: rounded rectangle with pointer; consumes no draws
(the `rand` parameter of the source is unused). The `px || ...` / `py || ...`
re-defaulting treats `0` as absent. -/
def roughCallout (x y w h px py : ℚ) : String :=
  let rr := jsMin w h * (1 / 10)
  let pointerX := if px = 0 then x + w * (1 / 5) else px
  let pointerY := if py = 0 then y + h + 20 else py
  "M " ++ numStr (x + rr) ++ " " ++ numStr y
    ++ " L " ++ numStr (x + w - rr) ++ " " ++ numStr y ++ " Q " ++ numStr (x + w) ++ " "
    ++ numStr y ++ " " ++ numStr (x + w) ++ " " ++ numStr (y + rr)
    ++ " L " ++ numStr (x + w) ++ " " ++ numStr (y + h - rr) ++ " Q " ++ numStr (x + w)
    ++ " " ++ numStr (y + h) ++ " " ++ numStr (x + w - rr) ++ " " ++ numStr (y + h)
    ++ " L " ++ numStr (x + w * (7 / 20)) ++ " " ++ numStr (y + h) ++ " L "
    ++ numStr pointerX ++ " " ++ numStr pointerY ++ " L " ++ numStr (x + w * (3 / 20))
    ++ " " ++ numStr (y + h)
    ++ " L " ++ numStr (x + rr) ++ " " ++ numStr (y + h) ++ " Q " ++ numStr x ++ " "
    ++ numStr (y + h) ++ " " ++ numStr x ++ " " ++ numStr (y + h - rr)
    ++ " L " ++ numStr x ++ " " ++ numStr (y + rr) ++ " Q " ++ numStr x ++ " "
    ++ numStr y ++ " " ++ numStr (x + rr) ++ " " ++ numStr y

/-- `arrowHead(x, y, angle, size, style)`: wing points at `±0.8π`, rendered as
open V, filled triangle, kite, circle, or nothing. -/
def arrowHead (P : MathPrims) (x y angle size : ℚ) (style : HeadStyle) : String :=
  let a1 := angle + P.pi * (4 / 5)
  let a2 := angle - P.pi * (4 / 5)
  let x1 := x + P.cos a1 * size
  let y1 := y + P.sin a1 * size
  let x2 := x + P.cos a2 * size
  let y2 := y + P.sin a2 * size
  match style with
  | .triangle =>
    "M " ++ numStr x1 ++ " " ++ numStr y1 ++ " L " ++ numStr x ++ " " ++ numStr y
      ++ " L " ++ numStr x2 ++ " " ++ numStr y2 ++ " Z"
  | .diamond =>
    let dx := x - P.cos angle * size
    let dy := y - P.sin angle * size
    "M " ++ numStr x ++ " " ++ numStr y ++ " L " ++ numStr x1 ++ " " ++ numStr y1
      ++ " L " ++ numStr dx ++ " " ++ numStr dy ++ " L " ++ numStr x2 ++ " "
      ++ numStr y2 ++ " Z"
  | .circle =>
    "M " ++ numStr (x - size / 2) ++ " " ++ numStr y ++ " a " ++ numStr (size / 2)
      ++ " " ++ numStr (size / 2) ++ " 0 1 0 " ++ numStr size ++ " 0 a "
      ++ numStr (size / 2) ++ " " ++ numStr (size / 2) ++ " 0 1 0 " ++ numStr (-size) ++ " 0"
  | .none => ""
  | .arrow =>
    "M " ++ numStr x1 ++ " " ++ numStr y1 ++ " L " ++ numStr x ++ " " ++ numStr y
      ++ " L " ++ numStr x2 ++ " " ++ numStr y2

/-- The interior loop of the rough `curvedPath` for `≥ 3` points: each inner
point becomes a control point toward the midpoint with its successor. -/
def curvedSegs : List Point → String
  | p :: next :: rest =>
    " Q " ++ numStr p.x ++ " " ++ numStr p.y ++ " " ++ numStr ((p.x + next.x) / 2)
      ++ " " ++ numStr ((p.y + next.y) / 2) ++ curvedSegs (next :: rest)
  | _ => ""

/-- `curvedPath(points, rand, roughness)`: two points give a single random
quadratic with perpendicular bow (division by a zero length is a junk value,
NaN in JS); three or more re-smooth through the points without draws. -/
def curvedPath (P : MathPrims) (points : List Point) (ρ : ℚ) (r : ℤ) : String × ℤ :=
  if points.length < 2 then ("", r)
  else
    let p0 := points.getD 0 ⟨0, 0⟩
    if points.length = 2 then
      let p2 := points.getD 1 ⟨0, 0⟩
      let (m1, r1) := randNext r
      let (m2, r2) := randNext r1
      let midX := (p0.x + p2.x) / 2 + (m1 - 1 / 2) * ρ * 5
      let midY := (p0.y + p2.y) / 2 + (m2 - 1 / 2) * ρ * 5
      let dx := p2.x - p0.x
      let dy := p2.y - p0.y
      let len := P.sqrt (dx * dx + dy * dy)
      let perpX := -dy / len * 20
      let perpY := dx / len * 20
      ("M " ++ numStr p0.x ++ " " ++ numStr p0.y ++ " Q " ++ numStr (midX + perpX)
        ++ " " ++ numStr (midY + perpY) ++ " " ++ numStr p2.x ++ " " ++ numStr p2.y, r2)
    else
      let last := points.getD (points.length - 1) ⟨0, 0⟩
      let prev := points.getD (points.length - 2) ⟨0, 0⟩
      ("M " ++ numStr p0.x ++ " " ++ numStr p0.y ++ curvedSegs (points.drop 1)
        ++ " Q " ++ numStr prev.x ++ " " ++ numStr prev.y ++ " " ++ numStr last.x
        ++ " " ++ numStr last.y, r)

/-- The dark-to-light color table of `lightModeColor`. -/
def darkToLight : List (String × String) :=
  [("#ffffff", "#1e1e1e"), ("#e0e0e0", "#1e1e1e"), ("#94a3b8", "#475569"),
   ("#64748b", "#334155"), ("#f87171", "#dc2626"), ("#fb923c", "#ea580c"),
   ("#fbbf24", "#d97706"), ("#facc15", "#ca8a04"), ("#34d399", "#059669"),
   ("#22c55e", "#16a34a"), ("#60a5fa", "#2563eb"), ("#3b82f6", "#1d4ed8"),
   ("#c084fc", "#9333ea"), ("#a855f7", "#7c3aed"), ("#f472b6", "#db2777"),
   ("#ec4899", "#be185d")]

/-- `lightModeColor(color)`: table lookup on the lowercased color, identity
as fallback. -/
def lightModeColor (color : String) : String :=
  (darkToLight.lookup color.toLower).getD color

/-- `renderMultilineText(cx, cy, text, fontSize, fill, cleanStyle)`:
vertically centered block, lines spaced at `1.3 × fontSize`. -/
def renderMultilineText (cx cy : ℚ) (text : String) (fontSize : ℚ) (fill : String)
    (cleanStyle : Bool) : String :=
  let lines := splitNl text.data
  let lineHeight := fontSize * (13 / 10)
  let totalHeight := (lines.length : ℚ) * lineHeight
  let startY := cy - totalHeight / 2 + lineHeight / 2
  let fontFamily := if cleanStyle then "Inter, -apple-system, sans-serif"
    else "Virgil, Segoe UI Emoji, sans-serif"
  String.join (lines.enum.map (fun pr =>
    "<text x=\"" ++ numStr cx ++ "\" y=\"" ++ numStr (startY + (pr.1 : ℚ) * lineHeight)
      ++ "\" text-anchor=\"middle\" dominant-baseline=\"middle\" font-family=\""
      ++ fontFamily ++ "\" font-size=\"" ++ numStr fontSize ++ "\" fill=\"" ++ fill
      ++ "\">" ++ escapeXml (String.mk pr.2) ++ "</text>"))

/-- The arrow-label anchor computation shared verbatim by the clean and pro
arrow branches: 2 points interpolate linearly; `≥ 3` points at position
exactly `0.5` snap to index `⌊count/2⌋`; otherwise interpolate between the
points bracketing the fractional index `(count-1)·pos`; the explicit pixel
offset is added last. (Negative positions index out of range in JS and are
outside the modelled range.) -/
def arrowLabelAnchor (pts : List Point) (labelPos : ℚ) (labelOffset : Option Point) : Point :=
  let base : Point :=
    if pts.length = 2 then
      let p0 := pts.getD 0 ⟨0, 0⟩
      let p1 := pts.getD 1 ⟨0, 0⟩
      ⟨p0.x + (p1.x - p0.x) * labelPos, p0.y + (p1.y - p0.y) * labelPos⟩
    else if 3 ≤ pts.length ∧ labelPos = 1 / 2 then
      let mid := pts.getD (pts.length / 2) ⟨0, 0⟩
      ⟨mid.x, mid.y⟩
    else
      let totalIdx := ((pts.length : ℚ) - 1) * labelPos
      let idx : ℤ := Int.floor totalIdx
      let t := totalIdx - (idx : ℚ)
      let p1 := pts.getD (iMin idx ((pts.length : ℤ) - 1)).toNat ⟨0, 0⟩
      let p2 := pts.getD (iMin (idx + 1) ((pts.length : ℤ) - 1)).toNat ⟨0, 0⟩
      ⟨p1.x + (p2.x - p1.x) * t, p1.y + (p2.y - p1.y) * t⟩
  match labelOffset with
  | some off => ⟨base.x + off.x, base.y + off.y⟩
  | Option.none => base

/-- Adding the optional explicit label offset (the final step of the label
anchor computation). -/
def addLabelOffset (p : Point) : Option Point → Point
  | some off => ⟨p.x + off.x, p.y + off.y⟩
  | Option.none => p

/-- The Catmull-Rom-to-Bezier loop of the clean/pro curved arrow:
`cp1 = p1 + (p2-p0)/6`, `cp2 = p2 - (p3-p1)/6`, boundary indices clamped. -/
def catmullSegs (pts : List Point) : List ℕ → String
  | [] => ""
  | i :: is =>
    let n := pts.length
    let p0 := pts.getD (i - 1) ⟨0, 0⟩
    let p1 := pts.getD i ⟨0, 0⟩
    let p2 := pts.getD (i + 1) ⟨0, 0⟩
    let p3 := pts.getD (nMin (n - 1) (i + 2)) ⟨0, 0⟩
    let cp1x := p1.x + (p2.x - p0.x) / 6
    let cp1y := p1.y + (p2.y - p0.y) / 6
    let cp2x := p2.x - (p3.x - p1.x) / 6
    let cp2y := p2.y - (p3.y - p1.y) / 6
    " C " ++ numStr cp1x ++ " " ++ numStr cp1y ++ ", " ++ numStr cp2x ++ " "
      ++ numStr cp2y ++ ", " ++ numStr p2.x ++ " " ++ numStr p2.y ++ catmullSegs pts is

/-- The path of a clean/pro arrow: cubic curve(s) when `curved`, else a
polyline `M .. L ..` through the offset points. -/
def cleanArrowPath (pts : List Point) (curved : Bool) : String :=
  if curved ∧ 2 ≤ pts.length then
    let head := "M " ++ numStr (pts.getD 0 ⟨0, 0⟩).x ++ " " ++ numStr (pts.getD 0 ⟨0, 0⟩).y
    if pts.length = 2 then
      let p0 := pts.getD 0 ⟨0, 0⟩
      let p1 := pts.getD 1 ⟨0, 0⟩
      let dx := p1.x - p0.x
      let dy := p1.y - p0.y
      let cx1 := p0.x + dx * (3 / 10)
      let cy1 := p0.y + dy * (1 / 10)
      let cx2 := p0.x + dx * (7 / 10)
      let cy2 := p1.y - dy * (1 / 10)
      head ++ " C " ++ numStr cx1 ++ " " ++ numStr cy1 ++ ", " ++ numStr cx2 ++ " "
        ++ numStr cy2 ++ ", " ++ numStr p1.x ++ " " ++ numStr p1.y
    else
      head ++ catmullSegs pts (List.range (pts.length - 1))
  else
    "M " ++ String.intercalate " L " (pts.map (fun p => numStr p.x ++ " " ++ numStr p.y))

/-- `renderCleanShape(shape, stroke, fill, strokeWidth, opacity, darkMode)`:
crisp SVG primitives, no PRNG use. -/
def renderCleanShape (P : MathPrims) (shape : Shape) (stroke fill : String)
    (strokeWidth opacity : ℚ) : String :=
  let style := styleAttr stroke strokeWidth opacity
  match shape with
  | .rectangle c d =>
    let svg := "<rect x=\"" ++ numStr c.x ++ "\" y=\"" ++ numStr c.y ++ "\" width=\""
      ++ numStr d.width ++ "\" height=\"" ++ numStr d.height
      ++ "\" rx=\"8\" ry=\"8\" fill=\"" ++ (if fill ≠ "none" then fill else "none")
      ++ "\" " ++ style ++ "/>"
    if strTruthy d.label then
      svg ++ renderMultilineText (c.x + d.width / 2) (c.y + d.height / 2) (d.label.getD "")
        (calcFontSize (d.label.getD "") d.width d.height 16) stroke true
    else svg
  | .ellipse c d =>
    let cx := c.x + d.width / 2
    let cy := c.y + d.height / 2
    let svg := "<ellipse cx=\"" ++ numStr cx ++ "\" cy=\"" ++ numStr cy ++ "\" rx=\""
      ++ numStr (d.width / 2) ++ "\" ry=\"" ++ numStr (d.height / 2) ++ "\" fill=\""
      ++ (if fill ≠ "none" then fill else "none") ++ "\" " ++ style ++ "/>"
    if strTruthy d.label then
      svg ++ renderMultilineText cx cy (d.label.getD "")
        (calcFontSize (d.label.getD "") (d.width * (4 / 5)) (d.height * (4 / 5)) 16) stroke true
    else svg
  | .diamond c d =>
    let cx := c.x + d.width / 2
    let cy := c.y + d.height / 2
    let points := numStr cx ++ "," ++ numStr c.y ++ " " ++ numStr (c.x + d.width) ++ ","
      ++ numStr cy ++ " " ++ numStr cx ++ "," ++ numStr (c.y + d.height) ++ " "
      ++ numStr c.x ++ "," ++ numStr cy
    let svg := "<polygon points=\"" ++ points ++ "\" fill=\""
      ++ (if fill ≠ "none" then fill else "none") ++ "\" " ++ style ++ "/>"
    if strTruthy d.label then
      svg ++ renderMultilineText cx cy (d.label.getD "")
        (calcFontSize (d.label.getD "") (d.width * (3 / 5)) (d.height * (3 / 5)) 16) stroke true
    else svg
  | .line c points =>
    if points.length < 2 then ""
    else
      let pts := String.intercalate " " (points.map (fun p =>
        numStr (c.x + p.x) ++ "," ++ numStr (c.y + p.y)))
      "<polyline points=\"" ++ pts ++ "\" fill=\"none\" " ++ style ++ "/>"
  | .arrow c a =>
    if a.points.length < 2 then ""
    else
      let pts := a.points.map (fun p => (⟨c.x + p.x, c.y + p.y⟩ : Point))
      let dashStyle := if a.dashed then " stroke-dasharray=\"8 4\"" else ""
      let path := cleanArrowPath pts a.curved
      let last := pts.getD (pts.length - 1) ⟨0, 0⟩
      let prev := pts.getD (pts.length - 2) ⟨0, 0⟩
      let angle := P.atan2 (last.y - prev.y) (last.x - prev.x)
      let headStyle := a.arrowHead.getD .arrow
      let headPath := arrowHead P last.x last.y angle 12 headStyle
      let headFill := if headStyle = .triangle ∨ headStyle = .diamond then stroke else "none"
      let svg := "<path d=\"" ++ path ++ "\" fill=\"none\" " ++ style ++ dashStyle
        ++ "/><path d=\"" ++ headPath ++ "\" stroke=\"" ++ stroke ++ "\" fill=\""
        ++ headFill ++ "\" stroke-width=\"" ++ numStr strokeWidth ++ "\"/>"
      if strTruthy a.label then
        let anchor := arrowLabelAnchor pts (a.labelPosition.getD (1 / 2)) a.labelOffset
        svg ++ "<text x=\"" ++ numStr anchor.x ++ "\" y=\"" ++ numStr (anchor.y - 8)
          ++ "\" text-anchor=\"middle\" font-family=\"Virgil, Inter, sans-serif\" font-size=\"12\" fill=\""
          ++ stroke ++ "\" font-style=\"italic\">" ++ escapeXml (a.label.getD "") ++ "</text>"
      else svg
  | .text c content fontSize _ =>
    "<text x=\"" ++ numStr c.x ++ "\" y=\"" ++ numStr c.y
      ++ "\" font-family=\"Inter, -apple-system, sans-serif\" font-size=\""
      ++ numStr (orQ fontSize 20) ++ "\" fill=\"" ++ stroke ++ "\" opacity=\""
      ++ numStr opacity ++ "\">" ++ escapeXml content ++ "</text>"
  | .cylinder c d =>
    let ellipseH := d.height * (3 / 25)
    let cx := c.x + d.width / 2
    let fillV := if fill ≠ "none" then fill else "none"
    let svg := "<ellipse cx=\"" ++ numStr cx ++ "\" cy=\"" ++ numStr (c.y + ellipseH)
        ++ "\" rx=\"" ++ numStr (d.width / 2) ++ "\" ry=\"" ++ numStr ellipseH
        ++ "\" fill=\"" ++ fillV ++ "\" " ++ style ++ "/>"
      ++ "<rect x=\"" ++ numStr c.x ++ "\" y=\"" ++ numStr (c.y + ellipseH) ++ "\" width=\""
        ++ numStr d.width ++ "\" height=\"" ++ numStr (d.height - ellipseH * 2)
        ++ "\" fill=\"" ++ fillV ++ "\" stroke=\"" ++ stroke ++ "\" stroke-width=\""
        ++ numStr strokeWidth ++ "\" opacity=\"" ++ numStr opacity ++ "\"/>"
      ++ "<ellipse cx=\"" ++ numStr cx ++ "\" cy=\"" ++ numStr (c.y + d.height - ellipseH)
        ++ "\" rx=\"" ++ numStr (d.width / 2) ++ "\" ry=\"" ++ numStr ellipseH
        ++ "\" fill=\"" ++ fillV ++ "\" " ++ style ++ "/>"
    if strTruthy d.label then
      svg ++ renderMultilineText cx (c.y + d.height / 2) (d.label.getD "")
        (calcFontSize (d.label.getD "") (d.width * (4 / 5)) (d.height * (1 / 2)) 16) stroke true
    else svg
  | .hexagon c d =>
    let cx := c.x + d.width / 2
    let cy := c.y + d.height / 2
    let inset := d.width * (1 / 4)
    let points := numStr (c.x + inset) ++ "," ++ numStr c.y ++ " "
      ++ numStr (c.x + d.width - inset) ++ "," ++ numStr c.y ++ " "
      ++ numStr (c.x + d.width) ++ "," ++ numStr cy ++ " "
      ++ numStr (c.x + d.width - inset) ++ "," ++ numStr (c.y + d.height) ++ " "
      ++ numStr (c.x + inset) ++ "," ++ numStr (c.y + d.height) ++ " "
      ++ numStr c.x ++ "," ++ numStr cy
    let svg := "<polygon points=\"" ++ points ++ "\" fill=\""
      ++ (if fill ≠ "none" then fill else "none") ++ "\" " ++ style ++ "/>"
    if strTruthy d.label then
      svg ++ renderMultilineText cx cy (d.label.getD "")
        (calcFontSize (d.label.getD "") (d.width * (1 / 2)) (d.height * (7 / 10)) 16) stroke true
    else svg
  | .cloud c d =>
    let cx := c.x + d.width / 2
    let cy := c.y + d.height / 2
    let rx := d.width / 2
    let ry := d.height / 2
    let path := "M " ++ numStr (c.x + rx * (3 / 10)) ++ " " ++ numStr (c.y + ry * (6 / 5))
      ++ " \n        Q " ++ numStr c.x ++ " " ++ numStr cy ++ " "
      ++ numStr (c.x + rx * (3 / 10)) ++ " " ++ numStr (c.y + ry * (1 / 2))
      ++ "\n        Q " ++ numStr (c.x + rx * (3 / 10)) ++ " " ++ numStr c.y ++ " "
      ++ numStr cx ++ " " ++ numStr (c.y + ry * (3 / 10))
      ++ "\n        Q " ++ numStr (c.x + d.width - rx * (3 / 10)) ++ " " ++ numStr c.y
      ++ " " ++ numStr (c.x + d.width - rx * (3 / 10)) ++ " " ++ numStr (c.y + ry * (1 / 2))
      ++ "\n        Q " ++ numStr (c.x + d.width) ++ " " ++ numStr cy ++ " "
      ++ numStr (c.x + d.width - rx * (3 / 10)) ++ " " ++ numStr (c.y + ry * (6 / 5))
      ++ "\n        Q " ++ numStr (c.x + d.width - rx * (1 / 2)) ++ " "
      ++ numStr (c.y + d.height) ++ " " ++ numStr cx ++ " " ++ numStr (c.y + ry * (3 / 2))
      ++ "\n        Q " ++ numStr (c.x + rx * (1 / 2)) ++ " " ++ numStr (c.y + d.height)
      ++ " " ++ numStr (c.x + rx * (3 / 10)) ++ " " ++ numStr (c.y + ry * (6 / 5)) ++ " Z"
    let svg := "<path d=\"" ++ path ++ "\" fill=\""
      ++ (if fill ≠ "none" then fill else "none") ++ "\" " ++ style ++ "/>"
    if strTruthy d.label then
      svg ++ renderMultilineText cx cy (d.label.getD "")
        (calcFontSize (d.label.getD "") (d.width * (3 / 5)) (d.height * (1 / 2)) 16) stroke true
    else svg
  | .document c d =>
    let waveH := d.height * (2 / 25)
    let path := "M " ++ numStr c.x ++ " " ++ numStr c.y ++ " L " ++ numStr (c.x + d.width)
      ++ " " ++ numStr c.y ++ " L " ++ numStr (c.x + d.width) ++ " "
      ++ numStr (c.y + d.height - waveH) ++ " Q " ++ numStr (c.x + d.width * (3 / 4))
      ++ " " ++ numStr (c.y + d.height + waveH) ++ " " ++ numStr (c.x + d.width * (1 / 2))
      ++ " " ++ numStr (c.y + d.height - waveH) ++ " Q " ++ numStr (c.x + d.width * (1 / 4))
      ++ " " ++ numStr (c.y + d.height - waveH * 3) ++ " " ++ numStr c.x ++ " "
      ++ numStr (c.y + d.height - waveH) ++ " Z"
    let svg := "<path d=\"" ++ path ++ "\" fill=\""
      ++ (if fill ≠ "none" then fill else "none") ++ "\" " ++ style ++ "/>"
    if strTruthy d.label then
      svg ++ renderMultilineText (c.x + d.width / 2) (c.y + d.height * (2 / 5)) (d.label.getD "")
        (calcFontSize (d.label.getD "") (d.width * (4 / 5)) (d.height * (3 / 5)) 16) stroke true
    else svg
  | .person c d =>
    let headR := jsMin d.width d.height * (9 / 50)
    let cx := c.x + d.width / 2
    let headY := c.y + headR + 5
    let svg := "<circle cx=\"" ++ numStr cx ++ "\" cy=\"" ++ numStr headY ++ "\" r=\""
        ++ numStr headR ++ "\" fill=\"none\" " ++ style ++ "/>"
      ++ "<line x1=\"" ++ numStr cx ++ "\" y1=\"" ++ numStr (headY + headR) ++ "\" x2=\""
        ++ numStr cx ++ "\" y2=\"" ++ numStr (c.y + d.height * (3 / 5)) ++ "\" " ++ style ++ "/>"
      ++ "<line x1=\"" ++ numStr (c.x + d.width * (3 / 20)) ++ "\" y1=\""
        ++ numStr (c.y + d.height * (7 / 20)) ++ "\" x2=\"" ++ numStr (c.x + d.width * (17 / 20))
        ++ "\" y2=\"" ++ numStr (c.y + d.height * (7 / 20)) ++ "\" " ++ style ++ "/>"
      ++ "<line x1=\"" ++ numStr cx ++ "\" y1=\"" ++ numStr (c.y + d.height * (3 / 5))
        ++ "\" x2=\"" ++ numStr (c.x + d.width * (1 / 5)) ++ "\" y2=\""
        ++ numStr (c.y + d.height) ++ "\" " ++ style ++ "/>"
      ++ "<line x1=\"" ++ numStr cx ++ "\" y1=\"" ++ numStr (c.y + d.height * (3 / 5))
        ++ "\" x2=\"" ++ numStr (c.x + d.width * (4 / 5)) ++ "\" y2=\""
        ++ numStr (c.y + d.height) ++ "\" " ++ style ++ "/>"
    if strTruthy d.label then
      svg ++ "<text x=\"" ++ numStr cx ++ "\" y=\"" ++ numStr (c.y + d.height + 18)
        ++ "\" text-anchor=\"middle\" font-family=\"Inter, -apple-system, sans-serif\" font-size=\"14\" fill=\""
        ++ stroke ++ "\">" ++ escapeXml (d.label.getD "") ++ "</text>"
    else svg
  | .callout c d pointerX pointerY =>
    let px := pointerX.getD (c.x + d.width * (1 / 5))
    let py := pointerY.getD (c.y + d.height + 20)
    let rr : ℚ := 8
    let path := "M " ++ numStr (c.x + rr) ++ " " ++ numStr c.y ++ " L "
      ++ numStr (c.x + d.width - rr) ++ " " ++ numStr c.y ++ " Q " ++ numStr (c.x + d.width)
      ++ " " ++ numStr c.y ++ " " ++ numStr (c.x + d.width) ++ " " ++ numStr (c.y + rr)
      ++ " L " ++ numStr (c.x + d.width) ++ " " ++ numStr (c.y + d.height - rr) ++ " Q "
      ++ numStr (c.x + d.width) ++ " " ++ numStr (c.y + d.height) ++ " "
      ++ numStr (c.x + d.width - rr) ++ " " ++ numStr (c.y + d.height) ++ " L "
      ++ numStr (c.x + d.width * (7 / 20)) ++ " " ++ numStr (c.y + d.height) ++ " L "
      ++ numStr px ++ " " ++ numStr py ++ " L " ++ numStr (c.x + d.width * (3 / 20))
      ++ " " ++ numStr (c.y + d.height) ++ " L " ++ numStr (c.x + rr) ++ " "
      ++ numStr (c.y + d.height) ++ " Q " ++ numStr c.x ++ " " ++ numStr (c.y + d.height)
      ++ " " ++ numStr c.x ++ " " ++ numStr (c.y + d.height - rr) ++ " L " ++ numStr c.x
      ++ " " ++ numStr (c.y + rr) ++ " Q " ++ numStr c.x ++ " " ++ numStr c.y ++ " "
      ++ numStr (c.x + rr) ++ " " ++ numStr c.y ++ " Z"
    let svg := "<path d=\"" ++ path ++ "\" fill=\""
      ++ (if fill ≠ "none" then fill else "none") ++ "\" " ++ style ++ "/>"
    if strTruthy d.label then
      svg ++ renderMultilineText (c.x + d.width / 2) (c.y + d.height / 2) (d.label.getD "")
        (calcFontSize (d.label.getD "") (d.width * (4 / 5)) (d.height * (7 / 10)) 16) stroke true
    else svg

/-- The segment loop of the rough line/arrow: one rough line per adjacent
pair, each followed by a space (`path += roughLine(..) + ' '`). -/
def roughSegs (xoff yoff ρ : ℚ) : List Point → ℤ → String × ℤ
  | p1 :: p2 :: rest, r =>
    let (s, r1) := roughLine (xoff + p1.x) (yoff + p1.y) (xoff + p2.x) (yoff + p2.y) ρ r
    let (restS, r2) := roughSegs xoff yoff ρ (p2 :: rest) r1
    (s ++ " " ++ restS, r2)
  | _, r => ("", r)

/-- `renderShape(shape, rand, roughness, darkMode, cleanStyle)` of the
renderer, in explicit state-passing form: the result carries the produced
markup, the shape as visible after the call (the source performs no
assignment to shape data), and the PRNG cursor after the call. -/
def renderShapeSt (P : MathPrims) (shape : Shape) (ρ : ℚ) (darkMode cleanStyle : Bool)
    (r : ℤ) : String × Shape × ℤ :=
  let defaultStroke := if darkMode then "#e0e0e0" else "#1e1e1e"
  let stroke := if !darkMode && strTruthy shape.c.strokeColor then
      lightModeColor (shape.c.strokeColor.getD "")
    else orStr shape.c.strokeColor defaultStroke
  let fill := orStr shape.c.fillColor "none"
  let strokeWidth := orQ shape.c.strokeWidth 2
  let opacity := (shape.c.opacity).getD 1
  let style := styleAttr stroke strokeWidth opacity
  if cleanStyle then (renderCleanShape P shape stroke fill strokeWidth opacity, shape, r)
  else
    match shape with
    | .rectangle c d =>
      let (path, r1) := roughRect c.x c.y d.width d.height ρ r
      let base := "<path d=\"" ++ path ++ "\" " ++ style ++ " fill=\"none\"/>"
      let svg := if fill ≠ "none" then
          "<rect x=\"" ++ numStr c.x ++ "\" y=\"" ++ numStr c.y ++ "\" width=\""
            ++ numStr d.width ++ "\" height=\"" ++ numStr d.height ++ "\" fill=\"" ++ fill
            ++ "\" opacity=\"" ++ numStr (opacity * (3 / 10)) ++ "\" stroke=\"none\"/>" ++ base
        else base
      let svg2 := if strTruthy d.label then
          svg ++ renderMultilineText (c.x + d.width / 2) (c.y + d.height / 2) (d.label.getD "")
            (calcFontSize (d.label.getD "") d.width d.height 16) stroke cleanStyle
        else svg
      (svg2, .rectangle c d, r1)
    | .ellipse c d =>
      let cx := c.x + d.width / 2
      let cy := c.y + d.height / 2
      let (path, r1) := roughEllipse P cx cy (d.width / 2) (d.height / 2) ρ r
      let base := "<path d=\"" ++ path ++ "\" " ++ style ++ " fill=\"none\"/>"
      let svg := if fill ≠ "none" then
          "<ellipse cx=\"" ++ numStr cx ++ "\" cy=\"" ++ numStr cy ++ "\" rx=\""
            ++ numStr (d.width / 2) ++ "\" ry=\"" ++ numStr (d.height / 2) ++ "\" fill=\""
            ++ fill ++ "\" opacity=\"" ++ numStr (opacity * (3 / 10))
            ++ "\" stroke=\"none\"/>" ++ base
        else base
      let svg2 := if strTruthy d.label then
          svg ++ renderMultilineText cx cy (d.label.getD "")
            (calcFontSize (d.label.getD "") (d.width * (4 / 5)) (d.height * (4 / 5)) 16)
            stroke cleanStyle
        else svg
      (svg2, .ellipse c d, r1)
    | .diamond c d =>
      let (path, r1) := roughDiamond c.x c.y d.width d.height ρ r
      let base := "<path d=\"" ++ path ++ "\" " ++ style ++ " fill=\"none\"/>"
      let cx := c.x + d.width / 2
      let cy := c.y + d.height / 2
      let svg := if fill ≠ "none" then
          "<polygon points=\"" ++ numStr cx ++ "," ++ numStr c.y ++ " "
            ++ numStr (c.x + d.width) ++ "," ++ numStr cy ++ " " ++ numStr cx ++ ","
            ++ numStr (c.y + d.height) ++ " " ++ numStr c.x ++ "," ++ numStr cy
            ++ "\" fill=\"" ++ fill ++ "\" opacity=\"" ++ numStr (opacity * (3 / 10))
            ++ "\" stroke=\"none\"/>" ++ base
        else base
      let svg2 := if strTruthy d.label then
          svg ++ renderMultilineText cx cy (d.label.getD "")
            (calcFontSize (d.label.getD "") (d.width * (3 / 5)) (d.height * (3 / 5)) 16)
            stroke cleanStyle
        else svg
      (svg2, .diamond c d, r1)
    | .line c points =>
      if points.length < 2 then ("", .line c points, r)
      else
        let (path, r1) := roughSegs c.x c.y ρ points r
        ("<path d=\"" ++ path ++ "\" " ++ style ++ " fill=\"none\"/>", .line c points, r1)
    | .arrow c a =>
      if a.points.length < 2 then ("", .arrow c a, r)
      else
        let dashStyle := if a.dashed then " stroke-dasharray=\"8 4\"" else ""
        let pts := a.points.map (fun p => (⟨c.x + p.x, c.y + p.y⟩ : Point))
        let (path, r1) := if a.curved then curvedPath P pts ρ r else roughSegs 0 0 ρ pts r
        let last := pts.getD (pts.length - 1) ⟨0, 0⟩
        let prev := pts.getD (pts.length - 2) ⟨0, 0⟩
        let angle := P.atan2 (last.y - prev.y) (last.x - prev.x)
        let headStyle := a.arrowHead.getD .arrow
        let headPath := arrowHead P last.x last.y angle 12 headStyle
        let tailPath := match a.arrowTail with
          | some t => if t ≠ HeadStyle.none then
              let first := pts.getD 0 ⟨0, 0⟩
              let second := pts.getD 1 ⟨0, 0⟩
              arrowHead P first.x first.y (P.atan2 (first.y - second.y) (first.x - second.x)) 12 t
            else ""
          | Option.none => ""
        let headFill := if headStyle = .triangle ∨ headStyle = .diamond then stroke else "none"
        ("<path d=\"" ++ path ++ "\" " ++ style ++ " fill=\"none\"" ++ dashStyle
          ++ "/><path d=\"" ++ headPath ++ "\" " ++ style ++ " fill=\"" ++ headFill ++ "\"/>"
          ++ (if tailPath = "" then "" else
            "<path d=\"" ++ tailPath ++ "\" " ++ style ++ " fill=\"" ++ headFill ++ "\"/>"),
          .arrow c a, r1)
    | .text c content fontSize fontFamily =>
      ("<text x=\"" ++ numStr c.x ++ "\" y=\"" ++ numStr c.y ++ "\" font-family=\""
        ++ orStr fontFamily "Virgil, Segoe UI Emoji, sans-serif" ++ "\" font-size=\""
        ++ numStr (orQ fontSize 20) ++ "\" fill=\"" ++ stroke ++ "\" opacity=\""
        ++ numStr opacity ++ "\">" ++ escapeXml content ++ "</text>",
        .text c content fontSize fontFamily, r)
    | .cylinder c d =>
      let (path, r1) := roughCylinder P c.x c.y d.width d.height ρ r
      let fillPart := if fill ≠ "none" then
          "<ellipse cx=\"" ++ numStr (c.x + d.width / 2) ++ "\" cy=\""
            ++ numStr (c.y + d.height * (3 / 20)) ++ "\" rx=\"" ++ numStr (d.width / 2)
            ++ "\" ry=\"" ++ numStr (d.height * (3 / 20)) ++ "\" fill=\"" ++ fill
            ++ "\" opacity=\"" ++ numStr (opacity * (3 / 10)) ++ "\" stroke=\"none\"/>"
          ++ "<rect x=\"" ++ numStr c.x ++ "\" y=\"" ++ numStr (c.y + d.height * (3 / 20))
            ++ "\" width=\"" ++ numStr d.width ++ "\" height=\"" ++ numStr (d.height * (7 / 10))
            ++ "\" fill=\"" ++ fill ++ "\" opacity=\"" ++ numStr (opacity * (3 / 10))
            ++ "\" stroke=\"none\"/>"
        else ""
      let svg := fillPart ++ "<path d=\"" ++ path ++ "\" " ++ style ++ " fill=\"none\"/>"
      let svg2 := if strTruthy d.label then
          svg ++ renderMultilineText (c.x + d.width / 2) (c.y + d.height / 2) (d.label.getD "")
            (calcFontSize (d.label.getD "") (d.width * (4 / 5)) (d.height * (1 / 2)) 16)
            stroke cleanStyle
        else svg
      (svg2, .cylinder c d, r1)
    | .cloud c d =>
      let (path, r1) := roughCloud P c.x c.y d.width d.height ρ r
      let fillPart := if fill ≠ "none" then
          "<path d=\"" ++ path ++ "\" fill=\"" ++ fill ++ "\" opacity=\""
            ++ numStr (opacity * (3 / 10)) ++ "\" stroke=\"none\"/>"
        else ""
      let svg := fillPart ++ "<path d=\"" ++ path ++ "\" " ++ style ++ " fill=\"none\"/>"
      let svg2 := if strTruthy d.label then
          svg ++ renderMultilineText (c.x + d.width / 2) (c.y + d.height / 2) (d.label.getD "")
            (calcFontSize (d.label.getD "") (d.width * (3 / 5)) (d.height * (1 / 2)) 16)
            stroke cleanStyle
        else svg
      (svg2, .cloud c d, r1)
    | .hexagon c d =>
      let (path, r1) := roughHexagon c.x c.y d.width d.height ρ r
      let cx := c.x + d.width / 2
      let cy := c.y + d.height / 2
      let inset := d.width * (1 / 4)
      let fillPart := if fill ≠ "none" then
          "<polygon points=\"" ++ numStr (c.x + inset) ++ "," ++ numStr c.y ++ " "
            ++ numStr (c.x + d.width - inset) ++ "," ++ numStr c.y ++ " "
            ++ numStr (c.x + d.width) ++ "," ++ numStr cy ++ " "
            ++ numStr (c.x + d.width - inset) ++ "," ++ numStr (c.y + d.height) ++ " "
            ++ numStr (c.x + inset) ++ "," ++ numStr (c.y + d.height) ++ " "
            ++ numStr c.x ++ "," ++ numStr cy ++ "\" fill=\"" ++ fill ++ "\" opacity=\""
            ++ numStr (opacity * (3 / 10)) ++ "\" stroke=\"none\"/>"
        else ""
      let svg := fillPart ++ "<path d=\"" ++ path ++ "\" " ++ style ++ " fill=\"none\"/>"
      let svg2 := if strTruthy d.label then
          svg ++ renderMultilineText cx cy (d.label.getD "")
            (calcFontSize (d.label.getD "") (d.width * (1 / 2)) (d.height * (7 / 10)) 16)
            stroke cleanStyle
        else svg
      (svg2, .hexagon c d, r1)
    | .document c d =>
      let (path, r1) := roughDocument c.x c.y d.width d.height ρ r
      let fillPart := if fill ≠ "none" then
          "<rect x=\"" ++ numStr c.x ++ "\" y=\"" ++ numStr c.y ++ "\" width=\""
            ++ numStr d.width ++ "\" height=\"" ++ numStr (d.height * (9 / 10))
            ++ "\" fill=\"" ++ fill ++ "\" opacity=\"" ++ numStr (opacity * (3 / 10))
            ++ "\" stroke=\"none\"/>"
        else ""
      let svg := fillPart ++ "<path d=\"" ++ path ++ "\" " ++ style ++ " fill=\"none\"/>"
      let svg2 := if strTruthy d.label then
          svg ++ renderMultilineText (c.x + d.width / 2) (c.y + d.height * (2 / 5))
            (d.label.getD "")
            (calcFontSize (d.label.getD "") (d.width * (4 / 5)) (d.height * (3 / 5)) 16)
            stroke cleanStyle
        else svg
      (svg2, .document c d, r1)
    | .person c d =>
      let (path, r1) := roughPerson P c.x c.y d.width d.height ρ r
      let svg := "<path d=\"" ++ path ++ "\" " ++ style ++ " fill=\"none\"/>"
      let svg2 := if strTruthy d.label then
          svg ++ "<text x=\"" ++ numStr (c.x + d.width / 2) ++ "\" y=\""
            ++ numStr (c.y + d.height + 15)
            ++ "\" text-anchor=\"middle\" font-family=\"Virgil, Segoe UI Emoji, sans-serif\" font-size=\"14\" fill=\""
            ++ stroke ++ "\">" ++ escapeXml (d.label.getD "") ++ "</text>"
        else svg
      (svg2, .person c d, r1)
    | .callout c d pointerX pointerY =>
      let px := pointerX.getD (c.x + d.width * (1 / 5))
      let py := pointerY.getD (c.y + d.height + 20)
      let path := roughCallout c.x c.y d.width d.height px py
      let fillPart := if fill ≠ "none" then
          "<path d=\"" ++ path ++ "\" fill=\"" ++ fill ++ "\" opacity=\""
            ++ numStr (opacity * (3 / 10)) ++ "\" stroke=\"none\"/>"
        else ""
      let svg := fillPart ++ "<path d=\"" ++ path ++ "\" " ++ style ++ " fill=\"none\"/>"
      let svg2 := if strTruthy d.label then
          svg ++ renderMultilineText (c.x + d.width / 2) (c.y + d.height / 2) (d.label.getD "")
            (calcFontSize (d.label.getD "") (d.width * (4 / 5)) (d.height * (7 / 10)) 16)
            stroke cleanStyle
        else svg
      (svg2, .callout c d pointerX pointerY, r)

/-- A pro-palette family: accent, glow, gradient-top, gradient-bottom. -/
structure ProColor where
  accent : String
  glow : String
  gradTop : String
  gradBot : String
deriving DecidableEq, Repr

/-- The `PRO_COLORS` table (insertion order preserved). -/
def PRO_COLORS : List (String × ProColor) :=
  [("#00d4ff", ⟨"#00d4ff", "rgba(0, 212, 255, 0.3)", "#0d2a3a", "#0a1628"⟩),
   ("#dbeafe", ⟨"#00d4ff", "rgba(0, 212, 255, 0.3)", "#0d2a3a", "#0a1628"⟩),
   ("#bae6fd", ⟨"#00d4ff", "rgba(0, 212, 255, 0.3)", "#0d2a3a", "#0a1628"⟩),
   ("#67e8f9", ⟨"#00d4ff", "rgba(0, 212, 255, 0.3)", "#0d2a3a", "#0a1628"⟩),
   ("#22d3ee", ⟨"#00d4ff", "rgba(0, 212, 255, 0.3)", "#0d2a3a", "#0a1628"⟩),
   ("#00ff88", ⟨"#00ff88", "rgba(0, 255, 136, 0.3)", "#0d2a1e", "#0a1628"⟩),
   ("#dcfce7", ⟨"#00ff88", "rgba(0, 255, 136, 0.3)", "#0d2a1e", "#0a1628"⟩),
   ("#bbf7d0", ⟨"#00ff88", "rgba(0, 255, 136, 0.3)", "#0d2a1e", "#0a1628"⟩),
   ("#22c55e", ⟨"#00ff88", "rgba(0, 255, 136, 0.3)", "#0d2a1e", "#0a1628"⟩),
   ("#34d399", ⟨"#00ff88", "rgba(0, 255, 136, 0.3)", "#0d2a1e", "#0a1628"⟩),
   ("#ff9f43", ⟨"#ff9f43", "rgba(255, 159, 67, 0.3)", "#2a1d0d", "#0a1628"⟩),
   ("#fef3c7", ⟨"#ff9f43", "rgba(255, 159, 67, 0.3)", "#2a1d0d", "#0a1628"⟩),
   ("#fed7aa", ⟨"#ff9f43", "rgba(255, 159, 67, 0.3)", "#2a1d0d", "#0a1628"⟩),
   ("#fb923c", ⟨"#ff9f43", "rgba(255, 159, 67, 0.3)", "#2a1d0d", "#0a1628"⟩),
   ("#f59e0b", ⟨"#ff9f43", "rgba(255, 159, 67, 0.3)", "#2a1d0d", "#0a1628"⟩),
   ("#a855f7", ⟨"#a855f7", "rgba(168, 85, 247, 0.3)", "#1e0d2a", "#0a1628"⟩),
   ("#e9d5ff", ⟨"#a855f7", "rgba(168, 85, 247, 0.3)", "#1e0d2a", "#0a1628"⟩),
   ("#c084fc", ⟨"#a855f7", "rgba(168, 85, 247, 0.3)", "#1e0d2a", "#0a1628"⟩),
   ("#9333ea", ⟨"#a855f7", "rgba(168, 85, 247, 0.3)", "#1e0d2a", "#0a1628"⟩),
   ("#ff6b9d", ⟨"#ff6b9d", "rgba(255, 107, 157, 0.3)", "#2a0d1e", "#0a1628"⟩),
   ("#fce7f3", ⟨"#ff6b9d", "rgba(255, 107, 157, 0.3)", "#2a0d1e", "#0a1628"⟩),
   ("#f472b6", ⟨"#ff6b9d", "rgba(255, 107, 157, 0.3)", "#2a0d1e", "#0a1628"⟩),
   ("#ec4899", ⟨"#ff6b9d", "rgba(255, 107, 157, 0.3)", "#2a0d1e", "#0a1628"⟩),
   ("#60a5fa", ⟨"#60a5fa", "rgba(96, 165, 250, 0.3)", "#0d1e2a", "#0a1628"⟩),
   ("#93c5fd", ⟨"#60a5fa", "rgba(96, 165, 250, 0.3)", "#0d1e2a", "#0a1628"⟩),
   ("#3b82f6", ⟨"#60a5fa", "rgba(96, 165, 250, 0.3)", "#0d1e2a", "#0a1628"⟩),
   ("#fbbf24", ⟨"#fbbf24", "rgba(251, 191, 36, 0.3)", "#2a250d", "#0a1628"⟩),
   ("#fef08a", ⟨"#fbbf24", "rgba(251, 191, 36, 0.3)", "#2a250d", "#0a1628"⟩),
   ("#facc15", ⟨"#fbbf24", "rgba(251, 191, 36, 0.3)", "#2a250d", "#0a1628"⟩),
   ("#f87171", ⟨"#ff6b9d", "rgba(255, 107, 157, 0.3)", "#2a0d0d", "#0a1628"⟩),
   ("#fca5a5", ⟨"#ff6b9d", "rgba(255, 107, 157, 0.3)", "#2a0d0d", "#0a1628"⟩),
   ("#ef4444", ⟨"#ff6b9d", "rgba(255, 107, 157, 0.3)", "#2a0d0d", "#0a1628"⟩)]

/-- `PRO_DEFAULT`: the fallback family. -/
def PRO_DEFAULT : ProColor := ⟨"#00d4ff", "rgba(0, 212, 255, 0.3)", "#0d2a3a", "#0a1628"⟩

/-- `getProColor(fillColor)`: falsy or `'none'` fill gives the default,
otherwise a lowercased table lookup with the default as fallback. -/
def getProColor (fillColor : Option String) : ProColor :=
  match fillColor with
  | Option.none => PRO_DEFAULT
  | some f =>
    if f = "" then PRO_DEFAULT
    else if f = "none" then PRO_DEFAULT
    else (PRO_COLORS.lookup f.toLower).getD PRO_DEFAULT

/-- `colorId(hex)`: strip `#` and every non-alphanumeric character. -/
def colorId (hex : String) : String := String.mk (hex.data.filter Char.isAlphanum)

/-- The resolved accent color of a shape (`getProColor(shape.fillColor).accent`). -/
def accentOf (s : Shape) : String := (getProColor s.c.fillColor).accent

/-- `Set.add` on an insertion-ordered list. -/
def addUnique (l : List String) (c : String) : List String :=
  if c ∈ l then l else l ++ [c]

/-- The `usedColors` set of `generateProDefs`: the accents of all shapes in
order of first appearance, with the default accent always added. -/
def usedAccents (shapes : List Shape) : List String :=
  addUnique (shapes.foldl (fun l s => addUnique l (accentOf s)) []) PRO_DEFAULT.accent

/-- The shared pro background gradient definition. -/
def proBgGrad : String :=
  "\n    <linearGradient id=\"pro-bgGrad\" x1=\"0%\" y1=\"0%\" x2=\"100%\" y2=\"100%\">\n      <stop offset=\"0%\" stop-color=\"#0f0f1e\"/>\n      <stop offset=\"50%\" stop-color=\"#1a1a2e\"/>\n      <stop offset=\"100%\" stop-color=\"#16213e\"/>\n    </linearGradient>"

/-- The shared pro grid pattern definition. -/
def proGridPattern : String :=
  "\n    <pattern id=\"pro-grid\" width=\"40\" height=\"40\" patternUnits=\"userSpaceOnUse\">\n      <path d=\"M 40 0 L 0 0 0 40\" fill=\"none\" stroke=\"#ffffff\" stroke-opacity=\"0.03\" stroke-width=\"0.5\"/>\n    </pattern>"

/-- One glow filter definition for an accent color. -/
def glowFilterBlock (accent : String) : String :=
  "\n    <filter id=\"pro-glow-" ++ colorId accent
    ++ "\" x=\"-30%\" y=\"-30%\" width=\"160%\" height=\"160%\">\n      <feGaussianBlur stdDeviation=\"4\" result=\"blur\"/>\n      <feFlood flood-color=\""
    ++ accent
    ++ "\" flood-opacity=\"0.3\" result=\"color\"/>\n      <feComposite in=\"color\" in2=\"blur\" operator=\"in\" result=\"glow\"/>\n      <feMerge><feMergeNode in=\"glow\"/><feMergeNode in=\"SourceGraphic\"/></feMerge>\n    </filter>"

/-- The shared pro drop-shadow filter definition. -/
def proShadowFilter : String :=
  "\n    <filter id=\"pro-shadow\" x=\"-10%\" y=\"-10%\" width=\"120%\" height=\"130%\">\n      <feDropShadow dx=\"0\" dy=\"2\" stdDeviation=\"4\" flood-color=\"#000000\" flood-opacity=\"0.5\"/>\n    </filter>"

/-- The gradient stops for an accent: the first `PRO_COLORS` entry with that
accent, with hard-coded fallback stops. -/
def gradForAccent (accent : String) : String × String :=
  match PRO_COLORS.find? (fun e => e.2.accent == accent) with
  | some e => (e.2.gradTop, e.2.gradBot)
  | Option.none => ("#0d1b2a", "#0a1628")

/-- One linear-gradient definition for an accent color. -/
def gradBlock (accent : String) : String :=
  "\n    <linearGradient id=\"pro-grad-" ++ colorId accent
    ++ "\" x1=\"0%\" y1=\"0%\" x2=\"0%\" y2=\"100%\">\n      <stop offset=\"0%\" stop-color=\""
    ++ (gradForAccent accent).1 ++ "\"/>\n      <stop offset=\"100%\" stop-color=\""
    ++ (gradForAccent accent).2 ++ "\"/>\n    </linearGradient>"

/-- One directional arrow-marker definition for an accent color. -/
def markerBlock (accent : String) : String :=
  "\n    <marker id=\"pro-arrow-" ++ colorId accent
    ++ "\" markerWidth=\"10\" markerHeight=\"7\" refX=\"10\" refY=\"3.5\" orient=\"auto\">\n      <path d=\"M0,0 L10,3.5 L0,7 Z\" fill=\""
    ++ accent ++ "\" opacity=\"0.8\"/>\n    </marker>"

/-- The extra white/default arrow marker. -/
def proDefaultMarker : String :=
  "\n    <marker id=\"pro-arrow-default\" markerWidth=\"10\" markerHeight=\"7\" refX=\"10\" refY=\"3.5\" orient=\"auto\">\n      <path d=\"M0,0 L10,3.5 L0,7 Z\" fill=\"#e2e8f0\" opacity=\"0.7\"/>\n    </marker>"

/-- `generateProDefs(shapes)`: the shared background gradient and grid, then
one glow filter, one gradient and one marker per used accent color, the
shadow filter and the default marker. -/
def generateProDefs (shapes : List Shape) : String :=
  let used := usedAccents shapes
  proBgGrad ++ proGridPattern
    ++ String.join (used.map glowFilterBlock)
    ++ proShadowFilter
    ++ String.join (used.map gradBlock)
    ++ String.join (used.map markerBlock)
    ++ proDefaultMarker

/-- The pro font-family string (built without apostrophe literals). -/
def proFontFamily : String :=
  "-apple-system, system-ui, " ++ aposStr ++ "Segoe UI" ++ aposStr ++ ", sans-serif"

/-- `renderProText(cx, cy, text, fontSize, fontFamily)`: centered light text. -/
def renderProText (cx cy : ℚ) (text : String) (fontSize : ℚ) (fontFamily : String) : String :=
  let lines := splitNl text.data
  let lineHeight := fontSize * (13 / 10)
  let totalHeight := (lines.length : ℚ) * lineHeight
  let startY := cy - totalHeight / 2 + lineHeight / 2
  String.join (lines.enum.map (fun pr =>
    "<text x=\"" ++ numStr cx ++ "\" y=\"" ++ numStr (startY + (pr.1 : ℚ) * lineHeight)
      ++ "\" text-anchor=\"middle\" dominant-baseline=\"middle\" font-family=\""
      ++ fontFamily ++ "\" font-size=\"" ++ numStr fontSize
      ++ "\" fill=\"#e2e8f0\" font-weight=\"500\">" ++ escapeXml (String.mk pr.2) ++ "</text>"))

/-- The `fill`/`stroke` attribute group of a pro shape body. -/
def proBodyAttrs (accentId accent : String) (strokeWidth : ℚ) : String :=
  "fill=\"url(#pro-grad-" ++ accentId ++ ")\" stroke=\"" ++ accent
    ++ "\" stroke-width=\"" ++ numStr strokeWidth ++ "\" stroke-opacity=\"0.7\""

/-- The opening `<g>` of a pro shape with glow filter and opacity. -/
def proGroupOpen (accentId : String) (opacity : ℚ) : String :=
  "<g filter=\"url(#pro-glow-" ++ accentId ++ ")\" opacity=\"" ++ numStr opacity ++ "\">"

/-- `renderProShape(shape, darkMode)`: themed dark rendering; consumes no
PRNG draws, uses no `Math` primitives (arrow heads are markers), and performs
no assignment to shape data. -/
def renderProShape (shape : Shape) : String :=
  let pc := getProColor shape.c.fillColor
  let accent := pc.accent
  let accentId := colorId accent
  let strokeWidth := orQ shape.c.strokeWidth (6 / 5)
  let opacity := (shape.c.opacity).getD 1
  match shape with
  | .rectangle c d =>
    let svg := proGroupOpen accentId opacity
      ++ "<rect x=\"" ++ numStr c.x ++ "\" y=\"" ++ numStr c.y ++ "\" width=\""
      ++ numStr d.width ++ "\" height=\"" ++ numStr d.height ++ "\" rx=\"12\" "
      ++ proBodyAttrs accentId accent strokeWidth ++ "/>"
    let svg2 := if strTruthy d.label then
        svg ++ renderProText (c.x + d.width / 2) (c.y + d.height / 2) (d.label.getD "")
          (calcFontSize (d.label.getD "") d.width d.height 16) proFontFamily
      else svg
    svg2 ++ "</g>"
  | .ellipse c d =>
    let cx := c.x + d.width / 2
    let cy := c.y + d.height / 2
    let svg := proGroupOpen accentId opacity
      ++ "<ellipse cx=\"" ++ numStr cx ++ "\" cy=\"" ++ numStr cy ++ "\" rx=\""
      ++ numStr (d.width / 2) ++ "\" ry=\"" ++ numStr (d.height / 2) ++ "\" "
      ++ proBodyAttrs accentId accent strokeWidth ++ "/>"
    let svg2 := if strTruthy d.label then
        svg ++ renderProText cx cy (d.label.getD "")
          (calcFontSize (d.label.getD "") (d.width * (4 / 5)) (d.height * (4 / 5)) 16)
          proFontFamily
      else svg
    svg2 ++ "</g>"
  | .diamond c d =>
    let cx := c.x + d.width / 2
    let cy := c.y + d.height / 2
    let points := numStr cx ++ "," ++ numStr c.y ++ " " ++ numStr (c.x + d.width) ++ ","
      ++ numStr cy ++ " " ++ numStr cx ++ "," ++ numStr (c.y + d.height) ++ " "
      ++ numStr c.x ++ "," ++ numStr cy
    let svg := proGroupOpen accentId opacity
      ++ "<polygon points=\"" ++ points ++ "\" " ++ proBodyAttrs accentId accent strokeWidth ++ "/>"
    let svg2 := if strTruthy d.label then
        svg ++ renderProText cx cy (d.label.getD "")
          (calcFontSize (d.label.getD "") (d.width * (3 / 5)) (d.height * (3 / 5)) 16)
          proFontFamily
      else svg
    svg2 ++ "</g>"
  | .line c points =>
    if points.length < 2 then ""
    else
      let pts := String.intercalate " " (points.map (fun p =>
        numStr (c.x + p.x) ++ "," ++ numStr (c.y + p.y)))
      "<polyline points=\"" ++ pts ++ "\" fill=\"none\" stroke=\"" ++ accent
        ++ "\" stroke-width=\"" ++ numStr strokeWidth
        ++ "\" stroke-opacity=\"0.5\" opacity=\"" ++ numStr opacity ++ "\"/>"
  | .arrow c a =>
    if a.points.length < 2 then ""
    else
      let pts := a.points.map (fun p => (⟨c.x + p.x, c.y + p.y⟩ : Point))
      let dashStyle := if a.dashed then " stroke-dasharray=\"6 4\"" else ""
      let path := cleanArrowPath pts a.curved
      let svg := "<path d=\"" ++ path ++ "\" fill=\"none\" stroke=\"" ++ accent
        ++ "\" stroke-width=\"" ++ numStr strokeWidth
        ++ "\" stroke-opacity=\"0.5\" marker-end=\"url(#pro-arrow-" ++ accentId ++ ")\""
        ++ dashStyle ++ " opacity=\"" ++ numStr opacity ++ "\"/>"
      if strTruthy a.label then
        let anchor := arrowLabelAnchor pts (a.labelPosition.getD (1 / 2)) a.labelOffset
        svg ++ "<text x=\"" ++ numStr anchor.x ++ "\" y=\"" ++ numStr (anchor.y - 8)
          ++ "\" text-anchor=\"middle\" font-family=\"" ++ proFontFamily
          ++ "\" font-size=\"10\" fill=\"" ++ accent
          ++ "\" font-style=\"italic\" opacity=\"0.7\">" ++ escapeXml (a.label.getD "")
          ++ "</text>"
      else svg
  | .text c content fontSize _ =>
    "<text x=\"" ++ numStr c.x ++ "\" y=\"" ++ numStr c.y ++ "\" font-family=\""
      ++ proFontFamily ++ "\" font-size=\"" ++ numStr (orQ fontSize 20)
      ++ "\" fill=\"#e2e8f0\" font-weight=\"500\" opacity=\"" ++ numStr opacity ++ "\">"
      ++ escapeXml content ++ "</text>"
  | .cylinder c d =>
    let ellipseH := d.height * (3 / 25)
    let cx := c.x + d.width / 2
    let svg := proGroupOpen accentId opacity
      ++ "<rect x=\"" ++ numStr c.x ++ "\" y=\"" ++ numStr (c.y + ellipseH) ++ "\" width=\""
        ++ numStr d.width ++ "\" height=\"" ++ numStr (d.height - ellipseH * 2) ++ "\" "
        ++ proBodyAttrs accentId accent strokeWidth ++ "/>"
      ++ "<ellipse cx=\"" ++ numStr cx ++ "\" cy=\"" ++ numStr (c.y + ellipseH)
        ++ "\" rx=\"" ++ numStr (d.width / 2) ++ "\" ry=\"" ++ numStr ellipseH ++ "\" "
        ++ proBodyAttrs accentId accent strokeWidth ++ "/>"
      ++ "<ellipse cx=\"" ++ numStr cx ++ "\" cy=\"" ++ numStr (c.y + d.height - ellipseH)
        ++ "\" rx=\"" ++ numStr (d.width / 2) ++ "\" ry=\"" ++ numStr ellipseH ++ "\" "
        ++ proBodyAttrs accentId accent strokeWidth ++ "/>"
    let svg2 := if strTruthy d.label then
        svg ++ renderProText cx (c.y + d.height / 2) (d.label.getD "")
          (calcFontSize (d.label.getD "") (d.width * (4 / 5)) (d.height * (1 / 2)) 16)
          proFontFamily
      else svg
    svg2 ++ "</g>"
  | .cloud c d =>
    let cx := c.x + d.width / 2
    let cy := c.y + d.height / 2
    let rx := d.width / 2
    let ry := d.height / 2
    let cloudP := "M " ++ numStr (c.x + rx * (3 / 10)) ++ " " ++ numStr (c.y + ry * (6 / 5))
      ++ " \n        Q " ++ numStr c.x ++ " " ++ numStr cy ++ " "
      ++ numStr (c.x + rx * (3 / 10)) ++ " " ++ numStr (c.y + ry * (1 / 2))
      ++ "\n        Q " ++ numStr (c.x + rx * (3 / 10)) ++ " " ++ numStr c.y ++ " "
      ++ numStr cx ++ " " ++ numStr (c.y + ry * (3 / 10))
      ++ "\n        Q " ++ numStr (c.x + d.width - rx * (3 / 10)) ++ " " ++ numStr c.y
      ++ " " ++ numStr (c.x + d.width - rx * (3 / 10)) ++ " " ++ numStr (c.y + ry * (1 / 2))
      ++ "\n        Q " ++ numStr (c.x + d.width) ++ " " ++ numStr cy ++ " "
      ++ numStr (c.x + d.width - rx * (3 / 10)) ++ " " ++ numStr (c.y + ry * (6 / 5))
      ++ "\n        Q " ++ numStr (c.x + d.width - rx * (1 / 2)) ++ " "
      ++ numStr (c.y + d.height) ++ " " ++ numStr cx ++ " " ++ numStr (c.y + ry * (3 / 2))
      ++ "\n        Q " ++ numStr (c.x + rx * (1 / 2)) ++ " " ++ numStr (c.y + d.height)
      ++ " " ++ numStr (c.x + rx * (3 / 10)) ++ " " ++ numStr (c.y + ry * (6 / 5)) ++ " Z"
    let svg := proGroupOpen accentId opacity
      ++ "<path d=\"" ++ cloudP ++ "\" " ++ proBodyAttrs accentId accent strokeWidth ++ "/>"
    let svg2 := if strTruthy d.label then
        svg ++ renderProText cx cy (d.label.getD "")
          (calcFontSize (d.label.getD "") (d.width * (3 / 5)) (d.height * (1 / 2)) 16)
          proFontFamily
      else svg
    svg2 ++ "</g>"
  | .hexagon c d =>
    let cx := c.x + d.width / 2
    let cy := c.y + d.height / 2
    let inset := d.width * (1 / 4)
    let points := numStr (c.x + inset) ++ "," ++ numStr c.y ++ " "
      ++ numStr (c.x + d.width - inset) ++ "," ++ numStr c.y ++ " "
      ++ numStr (c.x + d.width) ++ "," ++ numStr cy ++ " "
      ++ numStr (c.x + d.width - inset) ++ "," ++ numStr (c.y + d.height) ++ " "
      ++ numStr (c.x + inset) ++ "," ++ numStr (c.y + d.height) ++ " "
      ++ numStr c.x ++ "," ++ numStr cy
    let svg := proGroupOpen accentId opacity
      ++ "<polygon points=\"" ++ points ++ "\" " ++ proBodyAttrs accentId accent strokeWidth ++ "/>"
    let svg2 := if strTruthy d.label then
        svg ++ renderProText cx cy (d.label.getD "")
          (calcFontSize (d.label.getD "") (d.width * (1 / 2)) (d.height * (7 / 10)) 16)
          proFontFamily
      else svg
    svg2 ++ "</g>"
  | .document c d =>
    let waveH := d.height * (2 / 25)
    let docP := "M " ++ numStr c.x ++ " " ++ numStr c.y ++ " L " ++ numStr (c.x + d.width)
      ++ " " ++ numStr c.y ++ " L " ++ numStr (c.x + d.width) ++ " "
      ++ numStr (c.y + d.height - waveH) ++ " Q " ++ numStr (c.x + d.width * (3 / 4))
      ++ " " ++ numStr (c.y + d.height + waveH) ++ " " ++ numStr (c.x + d.width * (1 / 2))
      ++ " " ++ numStr (c.y + d.height - waveH) ++ " Q " ++ numStr (c.x + d.width * (1 / 4))
      ++ " " ++ numStr (c.y + d.height - waveH * 3) ++ " " ++ numStr c.x ++ " "
      ++ numStr (c.y + d.height - waveH) ++ " Z"
    let svg := proGroupOpen accentId opacity
      ++ "<path d=\"" ++ docP ++ "\" " ++ proBodyAttrs accentId accent strokeWidth ++ "/>"
    let svg2 := if strTruthy d.label then
        svg ++ renderProText (c.x + d.width / 2) (c.y + d.height * (2 / 5)) (d.label.getD "")
          (calcFontSize (d.label.getD "") (d.width * (4 / 5)) (d.height * (3 / 5)) 16)
          proFontFamily
      else svg
    svg2 ++ "</g>"
  | .person c d =>
    let headR := jsMin d.width d.height * (9 / 50)
    let cx := c.x + d.width / 2
    let headY := c.y + headR + 5
    let strokeBit := "stroke=\"" ++ accent ++ "\" stroke-width=\"" ++ numStr strokeWidth
      ++ "\" stroke-opacity=\"0.7\""
    let svg := proGroupOpen accentId opacity
      ++ "<circle cx=\"" ++ numStr cx ++ "\" cy=\"" ++ numStr headY ++ "\" r=\""
        ++ numStr headR ++ "\" fill=\"none\" " ++ strokeBit ++ "/>"
      ++ "<line x1=\"" ++ numStr cx ++ "\" y1=\"" ++ numStr (headY + headR) ++ "\" x2=\""
        ++ numStr cx ++ "\" y2=\"" ++ numStr (c.y + d.height * (3 / 5)) ++ "\" "
        ++ strokeBit ++ "/>"
      ++ "<line x1=\"" ++ numStr (c.x + d.width * (3 / 20)) ++ "\" y1=\""
        ++ numStr (c.y + d.height * (7 / 20)) ++ "\" x2=\"" ++ numStr (c.x + d.width * (17 / 20))
        ++ "\" y2=\"" ++ numStr (c.y + d.height * (7 / 20)) ++ "\" " ++ strokeBit ++ "/>"
      ++ "<line x1=\"" ++ numStr cx ++ "\" y1=\"" ++ numStr (c.y + d.height * (3 / 5))
        ++ "\" x2=\"" ++ numStr (c.x + d.width * (1 / 5)) ++ "\" y2=\""
        ++ numStr (c.y + d.height) ++ "\" " ++ strokeBit ++ "/>"
      ++ "<line x1=\"" ++ numStr cx ++ "\" y1=\"" ++ numStr (c.y + d.height * (3 / 5))
        ++ "\" x2=\"" ++ numStr (c.x + d.width * (4 / 5)) ++ "\" y2=\""
        ++ numStr (c.y + d.height) ++ "\" " ++ strokeBit ++ "/>"
    let svg2 := if strTruthy d.label then
        svg ++ "<text x=\"" ++ numStr cx ++ "\" y=\"" ++ numStr (c.y + d.height + 18)
          ++ "\" text-anchor=\"middle\" font-family=\"" ++ proFontFamily
          ++ "\" font-size=\"12\" fill=\"#e2e8f0\" font-weight=\"500\">"
          ++ escapeXml (d.label.getD "") ++ "</text>"
      else svg
    svg2 ++ "</g>"
  | .callout c d pointerX pointerY =>
    let px := pointerX.getD (c.x + d.width * (1 / 5))
    let py := pointerY.getD (c.y + d.height + 20)
    let rr : ℚ := 12
    let calloutP := "M " ++ numStr (c.x + rr) ++ " " ++ numStr c.y ++ " L "
      ++ numStr (c.x + d.width - rr) ++ " " ++ numStr c.y ++ " Q " ++ numStr (c.x + d.width)
      ++ " " ++ numStr c.y ++ " " ++ numStr (c.x + d.width) ++ " " ++ numStr (c.y + rr)
      ++ " L " ++ numStr (c.x + d.width) ++ " " ++ numStr (c.y + d.height - rr) ++ " Q "
      ++ numStr (c.x + d.width) ++ " " ++ numStr (c.y + d.height) ++ " "
      ++ numStr (c.x + d.width - rr) ++ " " ++ numStr (c.y + d.height) ++ " L "
      ++ numStr (c.x + d.width * (7 / 20)) ++ " " ++ numStr (c.y + d.height) ++ " L "
      ++ numStr px ++ " " ++ numStr py ++ " L " ++ numStr (c.x + d.width * (3 / 20))
      ++ " " ++ numStr (c.y + d.height) ++ " L " ++ numStr (c.x + rr) ++ " "
      ++ numStr (c.y + d.height) ++ " Q " ++ numStr c.x ++ " " ++ numStr (c.y + d.height)
      ++ " " ++ numStr c.x ++ " " ++ numStr (c.y + d.height - rr) ++ " L " ++ numStr c.x
      ++ " " ++ numStr (c.y + rr) ++ " Q " ++ numStr c.x ++ " " ++ numStr c.y ++ " "
      ++ numStr (c.x + rr) ++ " " ++ numStr c.y ++ " Z"
    let svg := proGroupOpen accentId opacity
      ++ "<path d=\"" ++ calloutP ++ "\" " ++ proBodyAttrs accentId accent strokeWidth ++ "/>"
    let svg2 := if strTruthy d.label then
        svg ++ renderProText (c.x + d.width / 2) (c.y + d.height / 2) (d.label.getD "")
          (calcFontSize (d.label.getD "") (d.width * (4 / 5)) (d.height * (7 / 10)) 16)
          proFontFamily
      else svg
    svg2 ++ "</g>"

/-- `a + b`, both extended (mixed-sign infinite sums are unreachable junk). -/
def XQ.add : XQ → XQ → XQ
  | .fin a, .fin b => .fin (a + b)
  | .pinf, _ => .pinf
  | .ninf, _ => .ninf
  | .fin _, .pinf => .pinf
  | .fin _, .ninf => .ninf

/-- JS number-to-string for the extended values. -/
def numStrX : XQ → String
  | .fin q => numStr q
  | .pinf => "Infinity"
  | .ninf => "-Infinity"

/-- `generateCornerAccents(vx, vy, vw, vh)`: the four fixed decorative corner
paths of the pro document. -/
def generateCornerAccents (vx vy vw vh : XQ) : String :=
  let m : ℚ := 15
  let len : ℚ := 30
  let x1 := vx.addQ m
  let y1 := vy.addQ m
  let x2 := ((vx.add vw).subQ m)
  let y2 := ((vy.add vh).subQ m)
  let tailBit := "\" stroke=\"#00ff88\" stroke-width=\"1.5\" stroke-opacity=\"0.15\" stroke-linecap=\"round\" fill=\"none\"/>"
  "\n  <path d=\"M" ++ numStrX x1 ++ "," ++ numStrX (y1.addQ len) ++ " L" ++ numStrX x1
    ++ "," ++ numStrX y1 ++ " L" ++ numStrX (x1.addQ len) ++ "," ++ numStrX y1 ++ tailBit
  ++ "\n  <path d=\"M" ++ numStrX (x2.subQ len) ++ "," ++ numStrX y1 ++ " L" ++ numStrX x2
    ++ "," ++ numStrX y1 ++ " L" ++ numStrX x2 ++ "," ++ numStrX (y1.addQ len) ++ tailBit
  ++ "\n  <path d=\"M" ++ numStrX x1 ++ "," ++ numStrX (y2.subQ len) ++ " L" ++ numStrX x1
    ++ "," ++ numStrX y2 ++ " L" ++ numStrX (x1.addQ len) ++ "," ++ numStrX y2 ++ tailBit
  ++ "\n  <path d=\"M" ++ numStrX (x2.subQ len) ++ "," ++ numStrX y2 ++ " L" ++ numStrX x2
    ++ "," ++ numStrX y2 ++ " L" ++ numStrX x2 ++ "," ++ numStrX (y2.subQ len) ++ tailBit

/-- The rough/clean shape loop of `renderToSvg`
(`for shape of state.shapes: shapes += renderShape(...)`), threading the PRNG
cursor and collecting the shapes as visible after each call. -/
def renderPass (P : MathPrims) (ρ : ℚ) (dm cs : Bool) :
    List Shape → ℤ → String × List Shape × ℤ
  | [], r => ("", [], r)
  | s :: rest, r =>
    let out := renderShapeSt P s ρ dm cs r
    let restOut := renderPass P ρ dm cs rest out.2.2
    (out.1 ++ restOut.1, out.2.1 :: restOut.2.1, restOut.2.2)

/-- The pro shape loop of `renderToSvg`, collecting the shapes as visible
after each call (pro rendering never writes to them). -/
def renderProPass : List Shape → String × List Shape
  | [] => ("", [])
  | s :: rest =>
    let restOut := renderProPass rest
    (renderProShape s ++ restOut.1, s :: restOut.2)

/-- The pro branch of `renderToSvg`, document string: defs, shapes, corner
accents; consumes neither the PRNG nor the `Math` primitives. -/
def proDocStr (state : CanvasState) (width height : ℚ) : String :=
  let bounds := calculateBounds state.shapes 500
  let contentW := XQ.sub bounds.maxX bounds.minX
  let contentH := XQ.sub bounds.maxY bounds.minY
  let vw := contentW.maxX width
  let vh := contentH.maxX height
  let vx := bounds.minX
  let vy := bounds.minY
  let bgPad : ℚ := 10000
  let bgX := vx.subQ bgPad
  let bgY := vy.subQ bgPad
  let bgW := vw.addQ (bgPad * 2)
  let bgH := vh.addQ (bgPad * 2)
  let defs := generateProDefs state.shapes
  let proOut := renderProPass state.shapes
  let corners := generateCornerAccents vx vy vw vh
  "<?xml version=\"1.0\" encoding=\"UTF-8\"?>\n<svg xmlns=\"http://www.w3.org/2000/svg\" width=\""
    ++ numStr width ++ "\" height=\"" ++ numStr height ++ "\" viewBox=\"" ++ numStrX vx
    ++ " " ++ numStrX vy ++ " " ++ numStrX vw ++ " " ++ numStrX vh
    ++ "\" font-family=\"" ++ proFontFamily ++ "\">\n  <defs>" ++ defs
    ++ "\n  </defs>\n  <rect x=\"" ++ numStrX bgX ++ "\" y=\"" ++ numStrX bgY
    ++ "\" width=\"" ++ numStrX bgW ++ "\" height=\"" ++ numStrX bgH
    ++ "\" fill=\"url(#pro-bgGrad)\"/>\n  <rect x=\"" ++ numStrX bgX ++ "\" y=\""
    ++ numStrX bgY ++ "\" width=\"" ++ numStrX bgW ++ "\" height=\"" ++ numStrX bgH
    ++ "\" fill=\"url(#pro-grid)\"/>\n  " ++ proOut.1 ++ "\n  " ++ corners
    ++ "\n</svg>"

/-- The pro branch as (document, shapes-after) pair (`renderProPass` is pure,
so recomputing it for the second component returns the same values). -/
def proDoc (state : CanvasState) (width height : ℚ) : String × List Shape :=
  (proDocStr state width height, (renderProPass state.shapes).2)

/-- The rough/clean branch of `renderToSvg`, document string: one PRNG cursor
`r0` threaded through the whole shape pass. -/
def standardDocStr (P : MathPrims) (state : CanvasState) (width height roughness : ℚ)
    (darkMode cleanStyle : Bool) (r0 : ℤ) : String :=
  let bgColor := if darkMode then "#1a1a2e" else orStr state.backgroundColor "#ffffff"
  let bounds := calculateBounds state.shapes 500
  let contentW := XQ.sub bounds.maxX bounds.minX
  let contentH := XQ.sub bounds.maxY bounds.minY
  let vw := contentW.maxX width
  let vh := contentH.maxX height
  let vx := bounds.minX
  let vy := bounds.minY
  let bgPad : ℚ := 10000
  let bgX := vx.subQ bgPad
  let bgY := vy.subQ bgPad
  let bgW := vw.addQ (bgPad * 2)
  let bgH := vh.addQ (bgPad * 2)
  let passOut := renderPass P roughness darkMode cleanStyle state.shapes r0
  "<?xml version=\"1.0\" encoding=\"UTF-8\"?>\n<svg xmlns=\"http://www.w3.org/2000/svg\" width=\""
    ++ numStr width ++ "\" height=\"" ++ numStr height ++ "\" viewBox=\"" ++ numStrX vx
    ++ " " ++ numStrX vy ++ " " ++ numStrX vw ++ " " ++ numStrX vh
    ++ "\">\n  <rect x=\"" ++ numStrX bgX ++ "\" y=\"" ++ numStrX bgY ++ "\" width=\""
    ++ numStrX bgW ++ "\" height=\"" ++ numStrX bgH ++ "\" fill=\"" ++ bgColor
    ++ "\"/>\n  " ++ passOut.1 ++ "\n</svg>"

/-- The rough/clean branch as (document, shapes-after) pair (`renderPass` is
pure, so recomputing it for the second component returns the same values). -/
def standardDoc (P : MathPrims) (state : CanvasState) (width height roughness : ℚ)
    (darkMode cleanStyle : Bool) (r0 : ℤ) : String × List Shape :=
  (standardDocStr P state width height roughness darkMode cleanStyle r0,
   (renderPass P roughness darkMode cleanStyle state.shapes r0).2.1)

/-- `renderToSvg(state, options)` in state-passing form, returning the
document string together with the shape list as visible after the call.
`now` models `Date.now()`: it is consumed only by the seed fallback
`options.seed || Date.now()`. -/
def renderToSvgSt (P : MathPrims) (now : ℤ) (state : CanvasState)
    (options : RenderOptions) : String × List Shape :=
  let width := orQ options.width 800
  let height := orQ options.height 600
  let roughness := options.roughness.getD 1
  let seed := orInt options.seed now
  let darkMode := options.darkMode.getD false
  if options.style = some Style.pro then proDoc state width height
  else
    standardDoc P state width height roughness darkMode
      (decide (options.style = some Style.clean)) seed

/-- `renderToSvg(state, options)`: the produced document string. -/
def renderToSvg (P : MathPrims) (now : ℤ) (state : CanvasState)
    (options : RenderOptions) : String :=
  (renderToSvgSt P now state options).1

/-- `renderToSvgHtml`: strip the XML declaration (its single occurrence is
the document prefix). -/
def renderToSvgHtml (P : MathPrims) (now : ℤ) (state : CanvasState)
    (options : RenderOptions) : String :=
  let svg := renderToSvg P now state options
  let hdr := "<?xml version=\"1.0\" encoding=\"UTF-8\"?>\n"
  if svg.startsWith hdr then svg.drop hdr.length else svg

/-! ### Specification-side definitions and concrete inputs for the claims -/

/-- Whether a binding reference is present and targets the moved shape's id. -/
def bindingHits (moved : Shape) (b : Option BindingRef) : Prop :=
  ∃ br, b = some br ∧ bindTarget br = moved.c.id

instance bindingHitsDec (moved : Shape) (b : Option BindingRef) :
    Decidable (bindingHits moved b) :=
  match b with
  | Option.none => isFalse (by simp [bindingHits])
  | some br =>
    if h : bindTarget br = moved.c.id then isTrue ⟨br, rfl, h⟩
    else isFalse (by simp [bindingHits, h])

/-- The anchor read off an optional binding reference. -/
def bindAnchorOpt : Option BindingRef → Anchor
  | some br => bindAnchor br
  | Option.none => .auto

/-- The claim-level description of the endpoint rewrite of one arrow: the
matching start binding overwrites the first point with the bare anchor point,
then the matching end binding overwrites the last point; offsets are ignored. -/
def specPoints (moved : Shape) (a : ArrowData) : List Point :=
  let p1 := if bindingHits moved a.startBinding ∧ 0 < a.points.length then
      a.points.set 0 (getAnchorPoint moved (bindAnchorOpt a.startBinding))
    else a.points
  if bindingHits moved a.endBinding ∧ 0 < a.points.length then
    p1.set (p1.length - 1) (getAnchorPoint moved (bindAnchorOpt a.endBinding))
  else p1

/-- Start binding of a shape (arrows only). -/
def startBindingOf : Shape → Option BindingRef
  | .arrow _ a => a.startBinding
  | _ => Option.none

/-- End binding of a shape (arrows only). -/
def endBindingOf : Shape → Option BindingRef
  | .arrow _ a => a.endBinding
  | _ => Option.none

/-- The arrow-label anchor as claim C6 words it: 2 points interpolate
linearly; an ODD point count at fraction 0.5 snaps to the literal middle
point; in every other case interpolate between the two points bracketing the
fractional index; offset added last. -/
def specLabelAnchor (pts : List Point) (pos : ℚ) (off : Option Point) : Point :=
  let base : Point :=
    if pts.length = 2 then
      let p0 := pts.getD 0 ⟨0, 0⟩
      let p1 := pts.getD 1 ⟨0, 0⟩
      ⟨p0.x + (p1.x - p0.x) * pos, p0.y + (p1.y - p0.y) * pos⟩
    else if pts.length % 2 = 1 ∧ pos = 1 / 2 then
      pts.getD (pts.length / 2) ⟨0, 0⟩
    else
      let totalIdx := ((pts.length : ℚ) - 1) * pos
      let idx : ℤ := Int.floor totalIdx
      let t := totalIdx - (idx : ℚ)
      let p1 := pts.getD (iMin idx ((pts.length : ℤ) - 1)).toNat ⟨0, 0⟩
      let p2 := pts.getD (iMin (idx + 1) ((pts.length : ℤ) - 1)).toNat ⟨0, 0⟩
      ⟨p1.x + (p2.x - p1.x) * t, p1.y + (p2.y - p1.y) * t⟩
  addLabelOffset base off

/-- Min-coordinate candidates of one shape for the bounds union (x axis). -/
def shapeMinXCands : Shape → List ℚ
  | .line _ pts => pts.map Point.x
  | .arrow _ a => a.points.map Point.x
  | s => [s.c.x]

/-- Min-coordinate candidates of one shape for the bounds union (y axis). -/
def shapeMinYCands : Shape → List ℚ
  | .line _ pts => pts.map Point.y
  | .arrow _ a => a.points.map Point.y
  | s => [s.c.y]

/-- Max-coordinate candidates of one shape for the bounds union (x axis);
non-path shapes contribute `x + (width ?? 100)`. -/
def shapeMaxXCands : Shape → List ℚ
  | .line _ pts => pts.map Point.x
  | .arrow _ a => a.points.map Point.x
  | s => [s.c.x + (s.widthOpt).getD 100]

/-- Max-coordinate candidates of one shape for the bounds union (y axis);
non-path shapes contribute `y + (height ?? 50)`. -/
def shapeMaxYCands : Shape → List ℚ
  | .line _ pts => pts.map Point.y
  | .arrow _ a => a.points.map Point.y
  | s => [s.c.y + (s.heightOpt).getD 50]

/-- Running minimum over a candidate list. -/
def foldMin (init : XQ) (l : List ℚ) : XQ := l.foldl XQ.minQ init

/-- Running maximum over a candidate list. -/
def foldMax (init : XQ) (l : List ℚ) : XQ := l.foldl XQ.maxQ init

/-- `calculateBounds` as claim C4 words it: the union of `(x,y)-(x+w,y+h)`
over BOX-LIKE shapes and of the raw point lists over line/arrow shapes,
expanded by the padding — text shapes contribute nothing here. -/
def calculateBoundsClaim (shapes : List Shape) (padding : ℚ) : Bounds :=
  if shapes = [] then ⟨.fin 0, .fin 0, .fin 1200, .fin 800⟩
  else
    let acc := shapes.foldl
      (fun b s =>
        match s with
        | .text _ _ _ _ => b
        | s => boundsStep b s) ⟨.pinf, .pinf, .ninf, .ninf⟩
    ⟨acc.minX.subQ padding, acc.minY.subQ padding,
     acc.maxX.addQ padding, acc.maxY.addQ padding⟩

/-- The distinct accent colors of the pro palette. -/
def accentsPalette : List String :=
  ["#00d4ff", "#00ff88", "#ff9f43", "#a855f7", "#ff6b9d", "#60a5fa", "#fbbf24"]

/-- A concrete interpretation of the uninterpreted `Math` primitives, for the
closed-instance theorems (the concrete inputs below exercise no
transcendental path). -/
def P0 : MathPrims := ⟨fun _ => 0, fun _ => 0, fun _ _ => 0, fun _ => 0, 0⟩

/-- Shape A of the bounds test: a rectangle at `(0,0)` sized `100×50`. -/
def rectA : Shape :=
  .rectangle ⟨"a", 0, 0, Option.none, Option.none, Option.none, Option.none⟩
    ⟨100, 50, Option.none⟩

/-- Shape B of the bounds test: a rectangle at `(200,200)` sized `50×50`. -/
def rectB : Shape :=
  .rectangle ⟨"b", 200, 200, Option.none, Option.none, Option.none, Option.none⟩
    ⟨50, 50, Option.none⟩

/-- A text shape at `(500,500)`. -/
def textT : Shape :=
  .text ⟨"t", 500, 500, Option.none, Option.none, Option.none, Option.none⟩ "x"
    Option.none Option.none

/-- A canvas with the single rectangle `rectA`. -/
def st0 : CanvasState := ⟨[rectA], Option.none⟩

/-- Rough render options carrying the fixed integer seed `0`. -/
def opts0 : RenderOptions :=
  ⟨Option.none, Option.none, Option.none, some 0, Option.none, some Style.rough⟩

/-- Rough render options carrying the fixed integer seed `7`. -/
def opts7 : RenderOptions :=
  ⟨Option.none, Option.none, Option.none, some 7, Option.none, some Style.rough⟩

/-- Clean-style render options (no seed). -/
def optsClean : RenderOptions :=
  ⟨Option.none, Option.none, Option.none, Option.none, Option.none, some Style.clean⟩

/-- Pro-style render options (no seed). -/
def optsPro : RenderOptions :=
  ⟨Option.none, Option.none, Option.none, Option.none, Option.none, some Style.pro⟩

/-- The moved shape of the binding tests: a rectangle `(10,10,100,50)` with
id `m`. -/
def movedR : Shape :=
  .rectangle ⟨"m", 10, 10, Option.none, Option.none, Option.none, Option.none⟩
    ⟨100, 50, Option.none⟩

/-- An arrow whose start binding targets `m` at anchor `top` with pixel
offset `(5,0)`. -/
def arrOff : Shape :=
  .arrow ⟨"ar", 0, 0, Option.none, Option.none, Option.none, Option.none⟩
    { points := [⟨0, 0⟩, ⟨5, 5⟩],
      startBinding := some (.ref ⟨"m", some Anchor.top, some 5, some 0⟩) }

/-- `arrOff` after `updateBoundArrows movedR`: the first point is the bare
anchor point `(60,10)`; the offset was not applied. -/
def arrOffAfter : Shape :=
  .arrow ⟨"ar", 0, 0, Option.none, Option.none, Option.none, Option.none⟩
    { points := [⟨60, 10⟩, ⟨5, 5⟩],
      startBinding := some (.ref ⟨"m", some Anchor.top, some 5, some 0⟩) }

/-- An arrow with a dangling start binding (`ghost` matches no shape) and an
end binding to `m`. -/
def arrDangling : Shape :=
  .arrow ⟨"ad", 0, 0, Option.none, Option.none, Option.none, Option.none⟩
    { points := [⟨0, 0⟩, ⟨5, 5⟩],
      startBinding := some (.byId "ghost"),
      endBinding := some (.byId "m") }

/-- An arrow with a dangling start binding only. -/
def arrDanglingOnly : Shape :=
  .arrow ⟨"ax", 0, 0, Option.none, Option.none, Option.none, Option.none⟩
    { points := [⟨0, 0⟩, ⟨5, 5⟩],
      startBinding := some (.byId "ghost") }

/-- Four collinear points for the label-anchor tests. -/
def pts4 : List Point := [⟨0, 0⟩, ⟨10, 0⟩, ⟨20, 0⟩, ⟨30, 0⟩]

/-- Two green-family shapes sharing one accent, for the dedup witness. -/
def greenShapes : List Shape :=
  [.rectangle ⟨"g1", 0, 0, Option.none, some "#22c55e", Option.none, Option.none⟩
      ⟨10, 10, Option.none⟩,
   .rectangle ⟨"g2", 20, 0, Option.none, some "#34d399", Option.none, Option.none⟩
      ⟨10, 10, Option.none⟩]

/-- A degenerate one-point line and arrow for the point-count guard. -/
def linePts1 : List Point := [⟨3, 4⟩]

/-- The arrow data of a degenerate one-point arrow. -/
def arrData1 : ArrowData := { points := [⟨3, 4⟩] }

/-- The point list of a shape (arrows only). -/
def arrowPointsOf : Shape → List Point
  | .arrow _ a => a.points
  | _ => []

/-- A concrete common-field record for the degenerate-shape witnesses. -/
def comW : Common :=
  ⟨"w", 0, 0, Option.none, Option.none, Option.none, Option.none⟩

/-! ### Theorems -/

set_option maxRecDepth 100000
set_option maxHeartbeats 2000000

theorem splitNl_ne_nil (cs : List Char) : splitNl cs ≠ [] := by
  induction cs with
  | nil => simp [splitNl]
  | cons c cs ih =>
    simp only [splitNl]
    split
    · simp
    · split <;> simp_all

theorem splitNl_length_pos (cs : List Char) : 0 < (splitNl cs).length :=
  List.length_pos.mpr (splitNl_ne_nil cs)

theorem jsMin_eq (a b : ℚ) : jsMin a b = min a b := by
  rw [jsMin, min_def]

theorem jsMax_eq (a b : ℚ) : jsMax a b = max a b := by
  unfold jsMax
  rcases le_total a b with h | h
  · rcases eq_or_lt_of_le h with rfl | hlt
    · simp
    · rw [if_neg (not_le.mpr hlt), max_eq_right h]
  · rw [if_pos h, max_eq_left h]

/-- Claim C7 (corrected), counterexample: at `maxWidth = 0` the width bound is
`0`, so `calcFontSize` returns `0`, outside the claimed interval
`(0, min(baseSize, 20)]`. -/
theorem calcFontSize_zero_width_not_positive :
    calcFontSize "A" 0 100 16 = 0 ∧ ¬ 0 < calcFontSize "A" 0 100 16 := by
  constructor <;> with_unfolding_all decide

/-- Claim C7 (amended): for positive box dimensions and positive base size,
`calcFontSize` returns `min(baseSize, width bound, height bound, 20)` (the
width bound entering only when the longest line is nonempty), and the result
always lies in `(0, min(baseSize, 20)]`. -/
theorem calcFontSize_spec (text : String) (maxWidth maxHeight baseSize : ℚ)
    (hw : 0 < maxWidth) (hh : 0 < maxHeight) (hb : 0 < baseSize) :
    (0 < calcFontSize text maxWidth maxHeight baseSize ∧
      calcFontSize text maxWidth maxHeight baseSize ≤ min baseSize 20) ∧
    (longestLineLen (splitNl text.data) ≠ 0 →
      calcFontSize text maxWidth maxHeight baseSize =
        min baseSize (min
          ((maxWidth * (17 / 20)) / ((longestLineLen (splitNl text.data) : ℚ) * (11 / 20)))
          (min ((maxHeight * (7 / 10)) / (((splitNl text.data).length : ℚ) * (13 / 10))) 20))) := by
  have hlines : (0 : ℚ) < ((splitNl text.data).length : ℚ) := by
    exact_mod_cast splitNl_length_pos text.data
  have hHB : 0 < (maxHeight * (7 / 10)) / (((splitNl text.data).length : ℚ) * (13 / 10)) :=
    div_pos (by linarith) (by positivity)
  constructor
  · by_cases hL : longestLineLen (splitNl text.data) = 0
    · have e : calcFontSize text maxWidth maxHeight baseSize =
          min baseSize
            (min ((maxHeight * (7 / 10)) / (((splitNl text.data).length : ℚ) * (13 / 10))) 20) := by
        simp only [calcFontSize, jsMin_eq, hL, if_true]
      rw [e]
      constructor
      · exact lt_min hb (lt_min hHB (by norm_num))
      · exact le_min (min_le_left _ _)
          (le_trans (min_le_right _ _) (min_le_right _ _))
    · have hLpos : (0 : ℚ) < (longestLineLen (splitNl text.data) : ℚ) := by
        exact_mod_cast Nat.pos_of_ne_zero hL
      have hWB : 0 < (maxWidth * (17 / 20)) /
          ((longestLineLen (splitNl text.data) : ℚ) * (11 / 20)) :=
        div_pos (by linarith) (by positivity)
      have e : calcFontSize text maxWidth maxHeight baseSize =
          min baseSize (min
            ((maxWidth * (17 / 20)) / ((longestLineLen (splitNl text.data) : ℚ) * (11 / 20)))
            (min ((maxHeight * (7 / 10)) / (((splitNl text.data).length : ℚ) * (13 / 10))) 20)) := by
        simp only [calcFontSize, jsMin_eq, hL, if_false]
      rw [e]
      constructor
      · exact lt_min hb (lt_min hWB (lt_min hHB (by norm_num)))
      · exact le_min (min_le_left _ _)
          (le_trans (min_le_right _ _)
            (le_trans (min_le_right _ _) (min_le_right _ _)))
  · intro hL
    simp only [calcFontSize, jsMin_eq, hL, if_false]

/-- Witness for `calcFontSize_spec` at a concrete label and box. -/
theorem calcFontSize_spec_witness :
    0 < calcFontSize "Hi" 100 50 16 ∧ calcFontSize "Hi" 100 50 16 ≤ min 16 20 :=
  (calcFontSize_spec "Hi" 100 50 16 (by norm_num) (by norm_num) (by norm_num)).1

/-- Claim C6 (corrected), counterexample: a 4-point arrow (EVEN point count)
at fraction 0.5 snaps to the point at index 2, while the claim's rule
interpolates the bracketing points to the midpoint `(15,0)`. -/
theorem arrowLabelAnchor_even_four_points_half :
    arrowLabelAnchor pts4 (1 / 2) Option.none = ⟨20, 0⟩ ∧
    specLabelAnchor pts4 (1 / 2) Option.none = ⟨15, 0⟩ ∧
    arrowLabelAnchor pts4 (1 / 2) Option.none ≠ specLabelAnchor pts4 (1 / 2) Option.none := by
  refine ⟨?_, ?_, ?_⟩ <;> with_unfolding_all decide

/-- Claim C6 (amended): the label anchor of a clean/pro arrow interpolates a
2-point arrow linearly; for `≥ 3` points at fraction exactly 0.5 it snaps to
the point at index `⌊count/2⌋` (the literal middle point only when the count
is odd); in every other case it interpolates between the two points
bracketing the fractional index `(count-1)·fraction`; the explicit pixel
offset is added last. -/
theorem arrowLabelAnchor_spec (pts : List Point) (pos : ℚ) (off : Option Point) :
    (pts.length = 2 →
      arrowLabelAnchor pts pos off = addLabelOffset
        ⟨(pts.getD 0 ⟨0, 0⟩).x + ((pts.getD 1 ⟨0, 0⟩).x - (pts.getD 0 ⟨0, 0⟩).x) * pos,
         (pts.getD 0 ⟨0, 0⟩).y + ((pts.getD 1 ⟨0, 0⟩).y - (pts.getD 0 ⟨0, 0⟩).y) * pos⟩ off) ∧
    (3 ≤ pts.length → pos = 1 / 2 →
      arrowLabelAnchor pts pos off = addLabelOffset (pts.getD (pts.length / 2) ⟨0, 0⟩) off) ∧
    (3 ≤ pts.length → pos ≠ 1 / 2 →
      arrowLabelAnchor pts pos off = addLabelOffset
        ⟨(pts.getD (iMin ⌊((pts.length : ℚ) - 1) * pos⌋ ((pts.length : ℤ) - 1)).toNat ⟨0, 0⟩).x
            + ((pts.getD (iMin (⌊((pts.length : ℚ) - 1) * pos⌋ + 1) ((pts.length : ℤ) - 1)).toNat ⟨0, 0⟩).x
              - (pts.getD (iMin ⌊((pts.length : ℚ) - 1) * pos⌋ ((pts.length : ℤ) - 1)).toNat ⟨0, 0⟩).x)
            * (((pts.length : ℚ) - 1) * pos - (⌊((pts.length : ℚ) - 1) * pos⌋ : ℚ)),
         (pts.getD (iMin ⌊((pts.length : ℚ) - 1) * pos⌋ ((pts.length : ℤ) - 1)).toNat ⟨0, 0⟩).y
            + ((pts.getD (iMin (⌊((pts.length : ℚ) - 1) * pos⌋ + 1) ((pts.length : ℤ) - 1)).toNat ⟨0, 0⟩).y
              - (pts.getD (iMin ⌊((pts.length : ℚ) - 1) * pos⌋ ((pts.length : ℤ) - 1)).toNat ⟨0, 0⟩).y)
            * (((pts.length : ℚ) - 1) * pos - (⌊((pts.length : ℚ) - 1) * pos⌋ : ℚ))⟩ off) := by
  refine ⟨?_, ?_, ?_⟩
  · intro h2
    unfold arrowLabelAnchor
    simp only [h2]
    cases off <;> rfl
  · intro h3 hpos
    have hne2 : pts.length ≠ 2 := by omega
    unfold arrowLabelAnchor
    rw [if_neg hne2, if_pos ⟨h3, hpos⟩]
    cases off <;> rfl
  · intro h3 hpos
    have hne2 : pts.length ≠ 2 := by omega
    have hcond : ¬ (3 ≤ pts.length ∧ pos = 1 / 2) := by
      rintro ⟨_, h⟩; exact hpos h
    unfold arrowLabelAnchor
    rw [if_neg hne2, if_neg hcond]
    cases off <;> rfl

/-- Witness for `arrowLabelAnchor_spec`: a 4-point arrow at fraction 0.25
interpolates to `(7.5, 0)` by the bracketing rule. -/
theorem arrowLabelAnchor_spec_witness :
    arrowLabelAnchor pts4 (1 / 4) Option.none = ⟨15 / 2, 0⟩ := by
  have h := (arrowLabelAnchor_spec pts4 (1 / 4) Option.none).2.2 (by decide) (by norm_num)
  rw [h]; with_unfolding_all decide

theorem updateArrowForMove_eq (moved : Shape) (s : Shape) :
    updateArrowForMove moved s =
      match s with
      | .arrow c a => (.arrow c { a with points := specPoints moved a },
          decide ((bindingHits moved a.startBinding ∨ bindingHits moved a.endBinding)
            ∧ 0 < a.points.length))
      | s => (s, false) := by
  cases s <;> try rfl
  case arrow c a =>
    simp only [updateArrowForMove, specPoints]
    rcases hsb : a.startBinding with _ | br1 <;> rcases heb : a.endBinding with _ | br2 <;>
      simp only [bindingHits, hsb, heb]
    · simp
    · by_cases h2 : bindTarget br2 = moved.c.id
      · by_cases hp : a.points.length > 0
        · simp [h2, hp, bindAnchorOpt]
        · simp [h2, hp, bindAnchorOpt]
      · simp [h2]
    · by_cases h1 : bindTarget br1 = moved.c.id
      · by_cases hp : a.points.length > 0
        · simp [h1, hp, bindAnchorOpt]
        · simp [h1, hp, bindAnchorOpt]
      · simp [h1]
    · by_cases h1 : bindTarget br1 = moved.c.id <;> by_cases h2 : bindTarget br2 = moved.c.id <;>
        by_cases hp : a.points.length > 0 <;>
        simp [h1, h2, hp, List.length_set, bindAnchorOpt]

theorem filter_map_fst {α β : Type} (f : α → β × Bool) (l : List α) :
    ((l.map f).filter Prod.snd).map Prod.fst
      = l.filterMap (fun s => if (f s).2 = true then some (f s).1 else Option.none) := by
  induction l with
  | nil => rfl
  | cons a l ih =>
    simp only [List.map_cons, List.filter_cons, List.filterMap_cons]
    cases h : (f a).2 <;> simp [h, ih]

theorem filterMap_congr_mem {α β : Type} {f g : α → Option β} :
    ∀ (l : List α), (∀ a ∈ l, f a = g a) → l.filterMap f = l.filterMap g
  | [], _ => rfl
  | a :: l, h => by
    simp only [List.filterMap_cons, h a (List.mem_cons_self a l),
      filterMap_congr_mem l (fun x hx => h x (List.mem_cons_of_mem a hx))]

/-- Claim C5 (amended): `updateBoundArrows(moved, shapes)` returns the shape
list in which every arrow whose start binding targets the moved id has its
FIRST point overwritten with the bare anchor point on the moved shape, and
every arrow whose end binding targets it has its LAST point overwritten
likewise — the binding's `offsetX`/`offsetY` are ignored — together with
exactly the arrows for which such an overwrite happened. -/
theorem updateBoundArrows_spec (moved : Shape) (shapes : List Shape) :
    (updateBoundArrows moved shapes).1 = shapes.map (fun s =>
      match s with
      | Shape.arrow c a => Shape.arrow c { a with points := specPoints moved a }
      | s => s) ∧
    (updateBoundArrows moved shapes).2 = shapes.filterMap (fun s =>
      match s with
      | Shape.arrow c a =>
        if (bindingHits moved a.startBinding ∨ bindingHits moved a.endBinding)
            ∧ 0 < a.points.length then
          some (Shape.arrow c { a with points := specPoints moved a })
        else Option.none
      | _ => Option.none) := by
  constructor
  · simp only [updateBoundArrows, List.map_map]
    refine List.map_congr_left ?_
    intro s _
    rw [Function.comp_apply, updateArrowForMove_eq]
    cases s <;> rfl
  · simp only [updateBoundArrows]
    rw [filter_map_fst]
    refine filterMap_congr_mem shapes ?_
    intro s _
    rw [updateArrowForMove_eq]
    cases s <;> simp

/-- Claim C5 (corrected), counterexample: a binding with pixel offset `(5,0)`
at anchor `top` of the moved shape `(10,10,100,50)` gets the bare anchor
point `(60,10)` written, not the claim's anchor-plus-offset `(65,10)`. -/
theorem updateBoundArrows_ignores_offset :
    (updateBoundArrows movedR [arrOff]).1 = [arrOffAfter] ∧
    (updateBoundArrows movedR [arrOff]).2 = [arrOffAfter] ∧
    getAnchorPoint movedR Anchor.top = ⟨60, 10⟩ ∧
    arrowPointsOf arrOffAfter = [⟨60, 10⟩, ⟨5, 5⟩] ∧
    (⟨60, 10⟩ : Point) ≠ ⟨60 + 5, 10 + 0⟩ := by
  refine ⟨?_, ?_, ?_, ?_, ?_⟩ <;> with_unfolding_all decide

/-- Claim C10 (amended): when no binding of any shape in the list targets the
moved shape's id — in particular when every binding is dangling and the moved
shape has a different id — `updateBoundArrows` leaves every shape unchanged
and returns no updated arrows (and, being total, raises nothing). -/
theorem updateBoundArrows_dangling_spec (moved : Shape) (shapes : List Shape)
    (h : ∀ s ∈ shapes, ¬ bindingHits moved (startBindingOf s) ∧
      ¬ bindingHits moved (endBindingOf s)) :
    updateBoundArrows moved shapes = (shapes, []) := by
  have hElem : ∀ s ∈ shapes, updateArrowForMove moved s = (s, false) := by
    intro s hs
    rw [updateArrowForMove_eq]
    cases s <;> try rfl
    case arrow c a =>
      have h1 := (h _ hs).1
      have h2 := (h _ hs).2
      simp only [startBindingOf] at h1
      simp only [endBindingOf] at h2
      have hflag : decide ((bindingHits moved a.startBinding ∨
          bindingHits moved a.endBinding) ∧ 0 < a.points.length) = false := by
        simp [h1, h2]
      have hpts : specPoints moved a = a.points := by
        unfold specPoints
        rw [if_neg (fun hcon => h2 hcon.1), if_neg (fun hcon => h1 hcon.1)]
      simp [hflag, hpts]
  simp only [updateBoundArrows, Prod.mk.injEq]
  constructor
  · simp only [List.map_map]
    calc shapes.map (Prod.fst ∘ updateArrowForMove moved)
        = shapes.map id := by
          refine List.map_congr_left ?_
          intro s hs
          rw [Function.comp_apply, hElem s hs]
          rfl
      _ = shapes := List.map_id shapes
  · rw [List.map_eq_nil_iff]
    rw [List.filter_eq_nil_iff]
    intro p hp
    rcases List.mem_map.mp hp with ⟨s, hs, rfl⟩
    rw [hElem s hs]
    simp

/-- Witness for `updateBoundArrows_dangling_spec`: a list holding one arrow
with a dangling binding, moved shape with a different id. -/
theorem updateBoundArrows_dangling_spec_witness :
    updateBoundArrows movedR [arrDanglingOnly] = ([arrDanglingOnly], []) :=
  updateBoundArrows_dangling_spec movedR [arrDanglingOnly] (by
    intro s hs
    rw [List.mem_singleton] at hs
    subst hs
    constructor <;> with_unfolding_all decide)

/-- Claim C10 (corrected), counterexample: the arrow `arrDangling` has a
dangling start binding (`ghost` matches no shape) and the moved shape has a
different id (`m`), yet its points change and it IS returned, because its end
binding targets the moved shape. -/
theorem updateBoundArrows_dangling_other_binding :
    arrDangling.c.id ≠ "ghost" ∧
    movedR.c.id ≠ "ghost" ∧
    (updateBoundArrows movedR [arrDangling]).2 ≠ [] ∧
    (updateBoundArrows movedR [arrDangling]).1 ≠ [arrDangling] := by
  refine ⟨?_, ?_, ?_, ?_⟩ <;> with_unfolding_all decide

theorem pointsFold (pts : List Point) (b : Bounds) :
    pts.foldl (fun b p => ⟨b.minX.minQ p.x, b.minY.minQ p.y, b.maxX.maxQ p.x, b.maxY.maxQ p.y⟩) b
      = ⟨foldMin b.minX (pts.map Point.x), foldMin b.minY (pts.map Point.y),
         foldMax b.maxX (pts.map Point.x), foldMax b.maxY (pts.map Point.y)⟩ := by
  induction pts generalizing b with
  | nil => rfl
  | cons p pts ih =>
    simp only [List.foldl_cons, List.map_cons, ih]
    rfl

theorem boundsStep_eq (b : Bounds) (s : Shape) :
    boundsStep b s =
      ⟨foldMin b.minX (shapeMinXCands s), foldMin b.minY (shapeMinYCands s),
       foldMax b.maxX (shapeMaxXCands s), foldMax b.maxY (shapeMaxYCands s)⟩ := by
  cases s <;> first
    | rfl
    | exact pointsFold _ _

theorem boundsFold_eq (shapes : List Shape) (b : Bounds) :
    shapes.foldl boundsStep b =
      ⟨foldMin b.minX (shapes.flatMap shapeMinXCands),
       foldMin b.minY (shapes.flatMap shapeMinYCands),
       foldMax b.maxX (shapes.flatMap shapeMaxXCands),
       foldMax b.maxY (shapes.flatMap shapeMaxYCands)⟩ := by
  induction shapes generalizing b with
  | nil => rfl
  | cons s rest ih =>
    simp only [List.foldl_cons, List.flatMap_cons, ih, boundsStep_eq, foldMin, foldMax,
      List.foldl_append]

/-- Claim C4 (amended): `calculateBounds([])` is the fixed default box for any
padding; on a non-empty list it is the running min/max over the candidate
coordinates — raw points for line/arrow shapes, `(x,y)`/`(x+w,y+h)` for
box-like shapes AND `(x,y)`/`(x+100,y+50)` for text shapes (their missing
width/height default to 100/50) — expanded by the padding on all four sides;
in particular A=(0,0,100,50), B=(200,200,50,50) at padding 10 give exactly
(−10,−10)–(260,260). -/
theorem calculateBounds_spec :
    (∀ pad : ℚ, calculateBounds [] pad = ⟨.fin 0, .fin 0, .fin 1200, .fin 800⟩) ∧
    (∀ (shapes : List Shape) (pad : ℚ), shapes ≠ [] →
      calculateBounds shapes pad = ⟨
        (foldMin .pinf (shapes.flatMap shapeMinXCands)).subQ pad,
        (foldMin .pinf (shapes.flatMap shapeMinYCands)).subQ pad,
        (foldMax .ninf (shapes.flatMap shapeMaxXCands)).addQ pad,
        (foldMax .ninf (shapes.flatMap shapeMaxYCands)).addQ pad⟩) ∧
    calculateBounds [rectA, rectB] 10 = ⟨.fin (-10), .fin (-10), .fin 260, .fin 260⟩ := by
  refine ⟨?_, ?_, ?_⟩
  · intro pad; rfl
  · intro shapes pad h
    simp only [calculateBounds, if_neg h]
    rw [boundsFold_eq]
  · with_unfolding_all decide

/-- Witness for `calculateBounds_spec` at one rectangle and padding 37. -/
theorem calculateBounds_spec_witness :
    calculateBounds [rectA] 37 = ⟨.fin (-37), .fin (-37), .fin 137, .fin 87⟩ := by
  have h := (calculateBounds_spec).2.1 [rectA] 37 (by simp)
  rw [h]
  with_unfolding_all decide

/-- Claim C4 (corrected), counterexample: a text shape contributes the box
`(x,y)-(x+100,y+50)` (default width/height), so the code's bounds for
`[rectA, textT]` exceed the claim's union over box-like and line/arrow
shapes only. -/
theorem calculateBounds_text_shape_breaks_claim :
    calculateBounds [rectA, textT] 10 = ⟨.fin (-10), .fin (-10), .fin 610, .fin 560⟩ ∧
    calculateBoundsClaim [rectA, textT] 10 = ⟨.fin (-10), .fin (-10), .fin 110, .fin 60⟩ ∧
    calculateBounds [rectA, textT] 10 ≠ calculateBoundsClaim [rectA, textT] 10 := by
  refine ⟨?_, ?_, ?_⟩ <;> with_unfolding_all decide

theorem str_empty_append (s : String) : "" ++ s = s := by
  cases s
  rfl

theorem renderShapeSt_frame (P : MathPrims) (s : Shape) (ρ : ℚ) (dm cs : Bool) (r : ℤ) :
    (renderShapeSt P s ρ dm cs r).2.1 = s := by
  cases cs
  · cases s <;> first
      | rfl
      | (simp only [renderShapeSt]
         repeat' split
         all_goals rfl)
  · rfl

theorem renderPass_shapes (P : MathPrims) (ρ : ℚ) (dm cs : Bool) :
    ∀ (shapes : List Shape) (r : ℤ), (renderPass P ρ dm cs shapes r).2.1 = shapes
  | [], _ => rfl
  | s :: rest, r => by
    show (renderShapeSt P s ρ dm cs r).2.1
        :: (renderPass P ρ dm cs rest (renderShapeSt P s ρ dm cs r).2.2).2.1 = s :: rest
    rw [renderShapeSt_frame, renderPass_shapes P ρ dm cs rest _]

theorem renderProPass_shapes : ∀ shapes : List Shape, (renderProPass shapes).2 = shapes
  | [] => rfl
  | s :: rest => by
    show s :: (renderProPass rest).2 = s :: rest
    rw [renderProPass_shapes rest]

theorem proDoc_shapes (state : CanvasState) (w h : ℚ) :
    (proDoc state w h).2 = state.shapes := by
  simp only [proDoc]
  exact renderProPass_shapes state.shapes

theorem standardDoc_shapes (P : MathPrims) (state : CanvasState) (w h ρ : ℚ)
    (dm cs : Bool) (r : ℤ) : (standardDoc P state w h ρ dm cs r).2 = state.shapes := by
  simp only [standardDoc]
  exact renderPass_shapes P ρ dm cs state.shapes r

/-- Claim C2 (confirmed): the renderer never mutates shape data — in the
state-passing embedding, the shape list as visible after a `renderToSvg` call
is the input list, for every style (rough, clean, pro), every option record
and every interpretation of the `Math` primitives. -/
theorem renderToSvg_preserves_shapes (P : MathPrims) (now : ℤ) (state : CanvasState)
    (options : RenderOptions) : (renderToSvgSt P now state options).2 = state.shapes := by
  simp only [renderToSvgSt]
  split
  · exact proDoc_shapes state _ _
  · exact standardDoc_shapes P state _ _ _ _ _ _

/-- Claim C9 (confirmed): a line or arrow with fewer than 2 points renders to
the empty string in rough, clean and pro style, is a total computation (no
exception), leaves the PRNG cursor and the shape untouched, and dropping it
from a render pass leaves the markup of the remaining shapes unchanged. -/
theorem renderShape_short_path_guard (P : MathPrims) (c : Common) (pts : List Point)
    (a : ArrowData) (hl : pts.length < 2) (ha : a.points.length < 2) :
    (∀ (ρ : ℚ) (dm cs : Bool) (r : ℤ),
      renderShapeSt P (.line c pts) ρ dm cs r = ("", .line c pts, r)) ∧
    (∀ (ρ : ℚ) (dm cs : Bool) (r : ℤ),
      renderShapeSt P (.arrow c a) ρ dm cs r = ("", .arrow c a, r)) ∧
    renderProShape (.line c pts) = "" ∧
    renderProShape (.arrow c a) = "" ∧
    (∀ (ρ : ℚ) (dm cs : Bool) (pre post : List Shape) (r : ℤ),
      (renderPass P ρ dm cs (pre ++ Shape.line c pts :: post) r).1
        = (renderPass P ρ dm cs (pre ++ post) r).1) ∧
    (∀ (ρ : ℚ) (dm cs : Bool) (pre post : List Shape) (r : ℤ),
      (renderPass P ρ dm cs (pre ++ Shape.arrow c a :: post) r).1
        = (renderPass P ρ dm cs (pre ++ post) r).1) := by
  have hline : ∀ (ρ : ℚ) (dm cs : Bool) (r : ℤ),
      renderShapeSt P (.line c pts) ρ dm cs r = ("", .line c pts, r) := by
    intro ρ dm cs r
    cases cs <;> simp [renderShapeSt, renderCleanShape, hl]
  have harrow : ∀ (ρ : ℚ) (dm cs : Bool) (r : ℤ),
      renderShapeSt P (.arrow c a) ρ dm cs r = ("", .arrow c a, r) := by
    intro ρ dm cs r
    cases cs <;> simp [renderShapeSt, renderCleanShape, ha]
  refine ⟨hline, harrow, ?_, ?_, ?_, ?_⟩
  · simp [renderProShape, hl]
  · simp [renderProShape, ha]
  · intro ρ dm cs pre post r
    induction pre generalizing r with
    | nil =>
      show ((renderShapeSt P (.line c pts) ρ dm cs r).1
          ++ (renderPass P ρ dm cs post (renderShapeSt P (.line c pts) ρ dm cs r).2.2).1)
        = (renderPass P ρ dm cs post r).1
      rw [hline ρ dm cs r]
      exact str_empty_append _
    | cons x pre ih =>
      show ((renderShapeSt P x ρ dm cs r).1
          ++ (renderPass P ρ dm cs (pre ++ Shape.line c pts :: post)
                (renderShapeSt P x ρ dm cs r).2.2).1)
        = ((renderShapeSt P x ρ dm cs r).1
          ++ (renderPass P ρ dm cs (pre ++ post) (renderShapeSt P x ρ dm cs r).2.2).1)
      rw [ih]
  · intro ρ dm cs pre post r
    induction pre generalizing r with
    | nil =>
      show ((renderShapeSt P (.arrow c a) ρ dm cs r).1
          ++ (renderPass P ρ dm cs post (renderShapeSt P (.arrow c a) ρ dm cs r).2.2).1)
        = (renderPass P ρ dm cs post r).1
      rw [harrow ρ dm cs r]
      exact str_empty_append _
    | cons x pre ih =>
      show ((renderShapeSt P x ρ dm cs r).1
          ++ (renderPass P ρ dm cs (pre ++ Shape.arrow c a :: post)
                (renderShapeSt P x ρ dm cs r).2.2).1)
        = ((renderShapeSt P x ρ dm cs r).1
          ++ (renderPass P ρ dm cs (pre ++ post) (renderShapeSt P x ρ dm cs r).2.2).1)
      rw [ih]

/-- Witness for `renderShape_short_path_guard`: a concrete one-point line
under the rough style. -/
theorem renderShape_short_path_guard_witness :
    renderShapeSt P0 (.line comW linePts1) 1 false false 5 = ("", .line comW linePts1, 5) :=
  (renderShape_short_path_guard P0 comW linePts1 arrData1 (by decide) (by decide)).1 1 false false 5

/-- Claim C1 (amended): for a NONZERO fixed integer seed, fixed roughness and
rough style, `renderToSvg` is independent of the ambient clock `now`, so
repeated calls produce byte-identical output. -/
theorem renderToSvg_rough_deterministic_nonzero_seed
    (P : MathPrims) (state : CanvasState) (o : RenderOptions) (s : ℤ)
    (hstyle : o.style = some Style.rough) (hseed : o.seed = some s) (hs : s ≠ 0)
    (now1 now2 : ℤ) :
    renderToSvg P now1 state o = renderToSvg P now2 state o := by
  unfold renderToSvg renderToSvgSt
  rw [hseed]
  simp [orInt, hs]

/-- Witness for `renderToSvg_rough_deterministic_nonzero_seed` at seed 7. -/
theorem renderToSvg_rough_deterministic_nonzero_seed_witness :
    renderToSvg P0 1 st0 opts7 = renderToSvg P0 2 st0 opts7 :=
  renderToSvg_rough_deterministic_nonzero_seed P0 st0 opts7 7 rfl rfl (by decide) 1 2

/-- Claim C1 (corrected), counterexample: the seed `0` is a fixed integer,
but `options.seed || Date.now()` treats it as absent, so two calls at
different clock readings produce different rough output. -/
theorem seed_zero_repeat_differs :
    opts0.seed = some 0 ∧ opts0.style = some Style.rough ∧
    renderToSvg P0 1 st0 opts0 ≠ renderToSvg P0 2 st0 opts0 := by
  refine ⟨rfl, rfl, ?_⟩
  with_unfolding_all decide

theorem renderShapeSt_clean_state (P : MathPrims) (s : Shape) (ρ : ℚ) (dm : Bool) (r r' : ℤ) :
    renderShapeSt P s ρ dm true r = ((renderShapeSt P s ρ dm true r').1, s, r) := rfl

theorem renderPass_clean_str (P : MathPrims) (ρ : ℚ) (dm : Bool) :
    ∀ (shapes : List Shape) (r r' : ℤ),
      (renderPass P ρ dm true shapes r).1 = (renderPass P ρ dm true shapes r').1 := by
  intro shapes
  induction shapes with
  | nil => intro r r'; rfl
  | cons s rest ih =>
    intro r r'
    show ((renderShapeSt P s ρ dm true r).1
        ++ (renderPass P ρ dm true rest (renderShapeSt P s ρ dm true r).2.2).1)
      = ((renderShapeSt P s ρ dm true r').1
        ++ (renderPass P ρ dm true rest (renderShapeSt P s ρ dm true r').2.2).1)
    rw [renderShapeSt_clean_state P s ρ dm r r', renderShapeSt_clean_state P s ρ dm r' r']
    exact congrArg _ (ih _ _)

theorem standardDocStr_r_invariant (P : MathPrims) (state : CanvasState) (w h ρ : ℚ)
    (dm : Bool) (r r' : ℤ) :
    standardDocStr P state w h ρ dm true r = standardDocStr P state w h ρ dm true r' := by
  unfold standardDocStr
  dsimp only
  rw [renderPass_clean_str P ρ dm state.shapes r r']

theorem standardDoc_r_invariant (P : MathPrims) (state : CanvasState) (w h ρ : ℚ)
    (dm : Bool) (r r' : ℤ) :
    standardDoc P state w h ρ dm true r = standardDoc P state w h ρ dm true r' := by
  unfold standardDoc
  rw [standardDocStr_r_invariant P state w h ρ dm r r',
    renderPass_shapes P ρ dm true state.shapes r,
    renderPass_shapes P ρ dm true state.shapes r']

/-- Claim C8 (confirmed): with style `clean` or `pro`, the output of
`renderToSvg` is identical across any two seed values (and any two clock
readings): neither style consumes the seeded PRNG. -/
theorem renderToSvg_seed_independent (P : MathPrims) (state : CanvasState)
    (o : RenderOptions) (s1 s2 : Option ℤ) (now1 now2 : ℤ)
    (h : o.style = some Style.clean ∨ o.style = some Style.pro) :
    renderToSvg P now1 state ⟨o.width, o.height, o.roughness, s1, o.darkMode, o.style⟩
      = renderToSvg P now2 state ⟨o.width, o.height, o.roughness, s2, o.darkMode, o.style⟩ := by
  have e1 : ∀ (sd : Option ℤ) (now : ℤ),
      renderToSvg P now state ⟨o.width, o.height, o.roughness, sd, o.darkMode, o.style⟩
        = (if o.style = some Style.pro then
            proDoc state (orQ o.width 800) (orQ o.height 600)
          else
            standardDoc P state (orQ o.width 800) (orQ o.height 600)
              (o.roughness.getD 1) (o.darkMode.getD false)
              (decide (o.style = some Style.clean)) (orInt sd now)).1 :=
    fun _ _ => rfl
  rcases h with h | h
  · rw [e1 s1 now1, e1 s2 now2, h]
    rw [if_neg (show ¬ (some Style.clean = some Style.pro) by simp),
      if_neg (show ¬ (some Style.clean = some Style.pro) by simp)]
    exact congrArg Prod.fst
      (standardDoc_r_invariant P state _ _ _ _ (orInt s1 now1) (orInt s2 now2))
  · rw [e1 s1 now1, e1 s2 now2, h, if_pos rfl, if_pos rfl]

/-- Witness for `renderToSvg_seed_independent`: clean style, seeds 5 and 9. -/
theorem renderToSvg_seed_independent_witness :
    renderToSvg P0 1 st0
        ⟨optsClean.width, optsClean.height, optsClean.roughness, some 5,
          optsClean.darkMode, optsClean.style⟩
      = renderToSvg P0 2 st0
        ⟨optsClean.width, optsClean.height, optsClean.roughness, some 9,
          optsClean.darkMode, optsClean.style⟩ :=
  renderToSvg_seed_independent P0 st0 optsClean (some 5) (some 9) 1 2 (Or.inl rfl)


/-! ### Claim C3: pro resource deduplication -/

theorem lookup_snd_mem : ∀ (l : List (String × ProColor)) (k : String) (v : ProColor),
    l.lookup k = some v → v ∈ l.map Prod.snd := by
  intro l
  induction l with
  | nil => intro k v h; simp [List.lookup] at h
  | cons p t ih =>
    intro k v h
    obtain ⟨a, b⟩ := p
    rw [List.lookup] at h
    split at h
    · injection h with h2
      subst h2
      simp only [List.map]
      exact List.mem_cons_self _ _
    · simp only [List.map]
      exact List.mem_cons_of_mem _ (ih k v h)

theorem proColors_accents : ∀ v ∈ PRO_COLORS.map Prod.snd, v.accent ∈ accentsPalette := by
  decide

theorem getProColor_accent_mem (fc : Option String) :
    (getProColor fc).accent ∈ accentsPalette := by
  match fc with
  | Option.none => decide
  | some f =>
    simp only [getProColor]
    split
    · decide
    split
    · decide
    cases hl : PRO_COLORS.lookup f.toLower with
    | none => decide
    | some pc =>
      simp only [Option.getD]
      exact proColors_accents pc (lookup_snd_mem PRO_COLORS f.toLower pc hl)

theorem mem_addUnique (l : List String) (c a : String) :
    a ∈ addUnique l c ↔ a ∈ l ∨ a = c := by
  unfold addUnique
  split
  · rename_i hc
    constructor
    · exact fun h => Or.inl h
    · intro h
      rcases h with h | h
      · exact h
      · subst h; exact hc
  · simp

theorem addUnique_nodup (l : List String) (c : String) (h : l.Nodup) :
    (addUnique l c).Nodup := by
  unfold addUnique
  split
  · exact h
  · rename_i hc
    exact List.Nodup.append h (List.nodup_singleton c)
      (fun x hx hxc => hc ((List.mem_singleton.mp hxc) ▸ hx))

theorem foldAdd_nodup (shapes : List Shape) :
    ∀ l : List String, l.Nodup →
      (shapes.foldl (fun l s => addUnique l (accentOf s)) l).Nodup := by
  induction shapes with
  | nil => intro l h; exact h
  | cons s t ih => intro l h; exact ih _ (addUnique_nodup l (accentOf s) h)

theorem mem_foldAdd (shapes : List Shape) :
    ∀ (l : List String) (a : String),
      a ∈ shapes.foldl (fun l s => addUnique l (accentOf s)) l ↔
        a ∈ l ∨ ∃ s ∈ shapes, accentOf s = a := by
  induction shapes with
  | nil => intro l a; simp
  | cons s t ih =>
    intro l a
    rw [List.foldl_cons, ih, mem_addUnique]
    constructor
    · rintro ((h | h) | h)
      · exact Or.inl h
      · exact Or.inr ⟨s, List.mem_cons_self s t, h.symm⟩
      · obtain ⟨s2, hs2, h2⟩ := h
        exact Or.inr ⟨s2, List.mem_cons_of_mem s hs2, h2⟩
    · rintro (h | ⟨s2, hs2, h2⟩)
      · exact Or.inl (Or.inl h)
      · rcases List.mem_cons.mp hs2 with h3 | h3
        · subst h3; exact Or.inl (Or.inr h2.symm)
        · exact Or.inr ⟨s2, h3, h2⟩

theorem usedAccents_nodup (shapes : List Shape) : (usedAccents shapes).Nodup :=
  addUnique_nodup _ _ (foldAdd_nodup shapes [] List.nodup_nil)

theorem mem_usedAccents (shapes : List Shape) (a : String) :
    a ∈ usedAccents shapes ↔ (∃ s ∈ shapes, accentOf s = a) ∨ a = PRO_DEFAULT.accent := by
  unfold usedAccents
  rw [mem_addUnique, mem_foldAdd]
  simp

theorem used_mem_palette (shapes : List Shape) :
    ∀ a ∈ usedAccents shapes, a ∈ accentsPalette := by
  intro a ha
  rcases (mem_usedAccents shapes a).mp ha with ⟨s, _, h⟩ | h
  · have h2 : accentOf s ∈ accentsPalette := getProColor_accent_mem s.c.fillColor
    exact h ▸ h2
  · subst h; decide

theorem blocks_injOn_palette :
    ∀ a ∈ accentsPalette, ∀ b ∈ accentsPalette,
      (glowFilterBlock a = glowFilterBlock b → a = b) ∧
      (gradBlock a = gradBlock b → a = b) ∧
      (markerBlock a = markerBlock b → a = b) := by
  decide

theorem count_map_block (l : List String) (f : String → String) (hnd : l.Nodup)
    (hinj : ∀ x ∈ l, ∀ y ∈ l, f x = f y → x = y) {a : String} (ha : a ∈ l) :
    (l.map f).count (f a) = 1 :=
  List.count_eq_one_of_mem (hnd.map_on hinj) (List.mem_map_of_mem f ha)

/-- Claim C3 (confirmed): the pro resource block lists the used accent colors
without duplicates (default always included, an accent listed iff some shape
resolves to it), and the emitted document is exactly the shared background
gradient and grid, one glow filter, one gradient and one marker per listed
accent (count 1 each, never N), plus the shadow filter and default marker. -/
theorem generateProDefs_dedup (shapes : List Shape) :
    (usedAccents shapes).Nodup ∧
    PRO_DEFAULT.accent ∈ usedAccents shapes ∧
    (∀ a, a ∈ usedAccents shapes ↔
      (∃ s ∈ shapes, accentOf s = a) ∨ a = PRO_DEFAULT.accent) ∧
    generateProDefs shapes =
      proBgGrad ++ proGridPattern
        ++ String.join ((usedAccents shapes).map glowFilterBlock)
        ++ proShadowFilter
        ++ String.join ((usedAccents shapes).map gradBlock)
        ++ String.join ((usedAccents shapes).map markerBlock)
        ++ proDefaultMarker ∧
    ∀ a ∈ usedAccents shapes,
      ((usedAccents shapes).map glowFilterBlock).count (glowFilterBlock a) = 1 ∧
      ((usedAccents shapes).map gradBlock).count (gradBlock a) = 1 ∧
      ((usedAccents shapes).map markerBlock).count (markerBlock a) = 1 := by
  have hnd := usedAccents_nodup shapes
  have hsub := used_mem_palette shapes
  refine ⟨hnd, (mem_usedAccents shapes _).mpr (Or.inr rfl), mem_usedAccents shapes, rfl, ?_⟩
  intro a ha
  exact ⟨count_map_block _ _ hnd
      (fun x hx y hy => (blocks_injOn_palette x (hsub x hx) y (hsub y hy)).1) ha,
    count_map_block _ _ hnd
      (fun x hx y hy => (blocks_injOn_palette x (hsub x hx) y (hsub y hy)).2.1) ha,
    count_map_block _ _ hnd
      (fun x hx y hy => (blocks_injOn_palette x (hsub x hx) y (hsub y hy)).2.2) ha⟩

/-- Witness for `generateProDefs_dedup`: two shapes with distinct green fills
resolve to the single accent `#00ff88`, which gets exactly one glow filter. -/
theorem generateProDefs_dedup_witness :
    "#00ff88" ∈ usedAccents greenShapes ∧
    ((usedAccents greenShapes).map glowFilterBlock).count (glowFilterBlock "#00ff88") = 1 :=
  ⟨by with_unfolding_all decide,
    ((generateProDefs_dedup greenShapes).2.2.2.2 "#00ff88" (by with_unfolding_all decide)).1⟩

end Sketchboard
